import Mathlib

/-!
Shallow embedding of the efrain.fm conversational song-recommendation server
(`server.js`): catalog data model, trait vocabulary, scoring engine, artist
resolver, related-song discovery, interrupt scheduler, and the two HTTP
handlers (`/api/chat`, `/api/favorite`), together with proofs of the spec
properties (no repeats, exhaustion terminality, genre/title isolation,
scaling of query weights, the raw-keyword pass, negation inversion,
keyword-service failure handling, interrupt cooldown and frame effects, and
session counter invariants).

Modelling conventions:
* JavaScript floating-point literals (0.8, 0.3, 1.2, ...) are modelled as
  exact rationals (`Rat`).
* `Math.random()`-driven choices are threaded explicitly: an index `n`
  selects `pool[n % pool.length]`, and the option shuffle in
  `getDynamicOptions` is an explicit function parameter.
* Calls to the external language service are oracle inputs: `none` models a
  rejected promise (a thrown exception), `some none` a fulfilled call whose
  text failed to parse, `some (some ks)` a fulfilled, parsed keyword list.
* The fixed per-message regular-expression detectors (`isAffirmation`,
  `isNegativeReaction`, ...) are pure functions of the message alone; their
  outcomes are supplied as a `MsgFlags` record so theorems quantify over
  every possible outcome.  String tests that the claims themselves depend on
  (word-boundary matching, substring containment, artist-signal patterns)
  are embedded concretely.
-/

namespace EFM

attribute [local semireducible] Rat.mul Rat.add Rat.sub Rat.inv Rat.ofScientific

/-- Lowercased character data of a string (ASCII case folding, as JS
`toLowerCase` behaves on the characters exercised here).  String operations
in this development are implemented over `List Char` so that all
definitions reduce inside the kernel. -/
def lowerData (s : String) : List Char := s.data.map Char.toLower

/-- `String.prototype.trim`: strip leading and trailing whitespace. -/
def strTrim (s : String) : String :=
  ⟨((s.data.dropWhile Char.isWhitespace).reverse.dropWhile Char.isWhitespace).reverse⟩

/-- JS `normalize`: NFD-normalize, strip combining marks (U+0300–U+036F),
lowercase.  Combining-mark stripping only changes accented characters, which
no statement in this development exercises; modelled as lowercasing. -/
def normalize (s : String) : String := ⟨lowerData s⟩

/-- JS `String.prototype.includes`: `strIncludes hay needle` is true when
`needle` occurs contiguously inside `hay` (always true for empty needle). -/
def strIncludes (hay needle : String) : Bool :=
  let h := hay.toList
  let n := needle.toList
  (List.range (h.length + 1)).any fun i => n.isPrefixOf (h.drop i)

/-- A regex `\w` character: ASCII letter, digit, or underscore. -/
def isWordChar (c : Char) : Bool := c.isAlphanum || c == '_'

/-- Whether position `i` of `cs` holds a word character (out of range: no). -/
def wordAt (cs : List Char) (i : Nat) : Bool :=
  match cs.get? i with
  | some c => isWordChar c
  | none => false

/-- A regex `\b` boundary at position `i` (between `cs[i-1]` and `cs[i]`):
exactly one side is a word character. -/
def boundaryAt (cs : List Char) (i : Nat) : Bool :=
  (if i = 0 then false else wordAt cs (i - 1)) != wordAt cs i

/-- The test `new RegExp('\\b' + escaped(kw) + '\\b').test(text)`: `kw`
occurs literally in `text` with a word boundary on each side.  (The source
escapes regex metacharacters in `kw`, so the pattern is a literal match.) -/
def wbTest (kw text : String) : Bool :=
  let cs := text.toList
  let k := kw.toList
  (List.range (cs.length + 1)).any fun i =>
    k.isPrefixOf (cs.drop i) && boundaryAt cs i && boundaryAt cs (i + k.length)

/-- Split character data at every whitespace character (the raw split
underlying `jsSplitWs`). -/
def splitEveryWs : List Char → List (List Char)
  | [] => [[]]
  | c :: rest =>
    match splitEveryWs rest with
    | h :: t => if c.isWhitespace then [] :: h :: t else (c :: h) :: t
    | [] => [[]]

/-- JS `msg.split(/\s+/)`: like splitting at every whitespace character but
with runs collapsed — interior empty fragments (from consecutive whitespace)
are dropped while an empty fragment at either end (leading/trailing
whitespace) is kept, and the empty string yields `[""]`. -/
def jsSplitWs (s : String) : List String :=
  match (splitEveryWs s.data).map (fun l => String.mk l) with
  | [] => [""]
  | x :: rest =>
    match rest.getLast? with
    | none => [x]
    | some last => x :: (rest.dropLast.filter (· ≠ "")) ++ [last]

/-- JS truthiness of a nullable string: non-null and non-empty. -/
def truthyS (o : Option String) : Bool :=
  match o with
  | some x => x ≠ ""
  | none => false

/-- A catalog track (`songs.json` record shape used by `server.js`). -/
structure Song where
  title : String
  artist : String
  year : Option Int
  traits : List (String × Rat)
  commentary : String
  spotify : Option String
  youtube : Option String
  apple_music : Option String
  tag_title : String
  tag_url : String
deriving Repr, DecidableEq

/-- Whether the song's streaming object carries a (truthy) YouTube link:
JS `song.streaming && song.streaming.youtube`. -/
def Song.isYT (g : Song) : Bool := truthyS g.youtube

/-- `getSongUrl`: first truthy of spotify, youtube, apple_music, else "". -/
def getSongUrl (g : Song) : String :=
  if truthyS g.spotify then g.spotify.getD ""
  else if truthyS g.youtube then g.youtube.getD ""
  else if truthyS g.apple_music then g.apple_music.getD ""
  else ""

/-- JS object property lookup on a traits object (keys unique). -/
def traitLookup (ts : List (String × Rat)) (k : String) : Option Rat :=
  (ts.find? (fun p => p.1 == k)).map (·.2)

/-- The `GENRE_WORDS` set: words that may only match trait keys, never
artist names or song titles. -/
def GENRE_WORDS : List String :=
  ["jazz", "electronic", "folk", "punk", "soul", "rap", "hip-hop", "hip hop",
   "ambient", "funk", "country", "reggae", "classical", "experimental", "r&b",
   "latin", "afrobeat", "blues", "pop", "noise", "indie", "dance", "rock",
   "metal", "gospel", "disco", "techno", "house", "grunge", "ska", "dub",
   "psychedelic", "acoustic", "outsider", "lo-fi", "americana",
   "new wave", "post-punk", "synth", "electro", "downtempo", "trip-hop",
   "proto-punk", "art rock", "garage", "shoegaze", "post-rock", "math rock",
   "krautrock", "drone", "abstract", "avant-garde", "country rock", "alt-country",
   "honky-tonk", "singer-songwriter", "noise rock", "noise pop", "dream pop",
   "slowcore", "emo", "hardcore", "thrash", "death metal", "black metal",
   "bossa nova", "samba", "tropicalia", "cumbia", "salsa", "merengue",
   "east coast rap", "west coast rap", "southern rap", "trap",
   "mellow", "chill", "upbeat", "energetic", "melancholy", "dreamy",
   "raw", "smooth", "sparse", "minimal", "intense", "gentle", "soft",
   "dark", "atmospheric", "haunting", "brooding", "romantic", "tender",
   "heavy", "loud", "quiet", "slow", "fast", "aggressive", "peaceful",
   "love", "pop", "can", "wire", "yes"]

/-- `COMMENTARY_STOPWORDS`: overly common words excluded from commentary
keyword matching. -/
def COMMENTARY_STOPWORDS : List String :=
  ["love", "like", "really", "great", "good", "best", "favorite", "favourite",
   "amazing", "beautiful", "perfect", "incredible", "awesome", "fantastic",
   "one", "song", "album", "music", "listen", "hear", "sound", "track",
   "first", "time", "ever", "always", "never", "still", "just", "even",
   "kind", "feel", "felt", "think", "thought", "know", "thing", "way",
   "make", "made", "got", "get", "take", "took", "come", "came",
   "something", "anything", "everything", "nothing", "someone",
   "year", "years", "day", "days", "life", "world", "back", "little"]

/-- `ARTIST_STOPWORDS`: generic band-name components excluded from pass-2
artist matching. -/
def ARTIST_STOPWORDS : List String :=
  ["music", "band", "sound", "sounds", "group", "club", "party",
   "world", "street", "city", "boys", "girls", "kids", "men", "women",
   "people", "gang", "crew", "young", "true", "pure", "wild",
   "black", "white", "red", "blue", "gold", "silver",
   "tapes", "records", "collective", "project", "unit"]

/-- The effective `TRAIT_ALIASES` object, in JS property order (first
occurrence of each key, with the value of its last assignment: the source
literal repeats the keys `soft`, `political`, `psychedelic` and `dance`, and
in a JS object literal the later value wins while the earlier position is
kept). -/
def TRAIT_ALIASES : List (String × String) :=
  [("high energy", "energy:high"), ("energetic", "energy:high"), ("loud", "energy:high"), ("fast", "energy:high"),
   ("low energy", "energy:low"), ("slow", "energy:low"), ("quiet", "energy:low"), ("soft", "mood:tender"), ("mellow", "energy:low"),
   ("hypnotic", "energy:hypnotic"), ("repetitive", "energy:hypnotic"), ("trance", "energy:hypnotic"),
   ("chaotic", "energy:chaotic"), ("frantic", "energy:chaotic"), ("hectic", "energy:chaotic"),
   ("sad", "mood:melancholic"), ("melancholy", "mood:melancholic"), ("melancholic", "mood:melancholic"), ("wistful", "mood:melancholic"),
   ("dark", "mood:dark"), ("heavy", "mood:dark"), ("bleak", "mood:dark"), ("brooding", "mood:dark"),
   ("happy", "mood:joyful"), ("joyful", "mood:joyful"), ("upbeat", "mood:joyful"), ("uplifting", "mood:joyful"), ("feel good", "mood:joyful"),
   ("tense", "mood:tense"), ("anxious", "mood:tense"), ("nervous", "mood:tense"),
   ("tender", "mood:tender"), ("gentle", "mood:tender"), ("sweet", "mood:tender"),
   ("angry", "mood:defiant"), ("defiant", "mood:defiant"), ("aggressive", "mood:defiant"), ("confrontational", "mood:defiant"), ("political", "char:political"),
   ("dreamy", "mood:dreamlike"), ("hazy", "mood:dreamlike"), ("surreal", "mood:dreamlike"), ("dreamlike", "mood:dreamlike"),
   ("weird", "mood:playful"), ("playful", "mood:playful"), ("funny", "mood:playful"), ("quirky", "mood:playful"),
   ("sexy", "mood:erotic"), ("erotic", "mood:erotic"), ("sensual", "mood:erotic"),
   ("spiritual", "mood:spiritual"), ("transcendent", "mood:spiritual"), ("devotional", "mood:spiritual"),
   ("lo-fi", "texture:lo-fi"), ("lofi", "texture:lo-fi"), ("raw", "texture:lo-fi"), ("rough", "texture:lo-fi"), ("tape", "texture:lo-fi"),
   ("lush", "texture:lush"), ("orchestral", "texture:lush"), ("layered", "texture:lush"), ("dense", "texture:lush"), ("produced", "texture:lush"),
   ("sparse", "texture:sparse"), ("minimal", "texture:sparse"), ("stripped", "texture:sparse"), ("bare", "texture:sparse"),
   ("noisy", "texture:noisy"), ("distorted", "texture:noisy"), ("abrasive", "texture:noisy"), ("feedback", "texture:noisy"),
   ("warm", "texture:warm"), ("analog", "texture:warm"), ("cozy", "texture:warm"),
   ("cold", "texture:cold"), ("clinical", "texture:cold"), ("digital", "texture:cold"), ("icy", "texture:cold"),
   ("psychedelic", "genre:psychedelic"), ("trippy", "texture:psychedelic"), ("warped", "texture:psychedelic"),
   ("cinematic", "texture:cinematic"), ("dramatic", "texture:cinematic"), ("score", "texture:cinematic"),
   ("punk", "genre:punk"), ("post-punk", "genre:post-punk"), ("garage", "genre:garage"), ("krautrock", "genre:krautrock"),
   ("electronic", "genre:electronic"), ("synth", "genre:electronic"), ("hip-hop", "genre:hip-hop"), ("rap", "genre:hip-hop"),
   ("hip hop", "genre:hip-hop"), ("soul", "genre:soul"), ("funk", "genre:funk"), ("folk", "genre:folk"),
   ("experimental", "genre:experimental"), ("avant-garde", "genre:experimental"), ("noise", "genre:noise"),
   ("ambient", "genre:ambient"), ("dance", "char:danceable"), ("disco", "genre:dance"),
   ("art rock", "genre:art-rock"), ("afrobeat", "genre:afrobeat"),
   ("r&b", "genre:r&b"), ("jazz", "genre:jazz"), ("country", "genre:country"), ("latin", "genre:latin"),
   ("pop", "mood:joyful"), ("mainstream pop", "mood:joyful"), ("mainstream", "mood:joyful"),
   ("pop music", "mood:joyful"), ("popular", "mood:joyful"),
   ("western", "genre:country"), ("country western", "genre:country"),
   ("50s", "era:50s"), ("1950s", "era:50s"),
   ("60s", "era:60s"), ("1960s", "era:60s"),
   ("70s", "era:70s"), ("1970s", "era:70s"),
   ("80s", "era:80s"), ("1980s", "era:80s"),
   ("90s", "era:90s"), ("1990s", "era:90s"),
   ("00s", "era:00s"), ("2000s", "era:00s"), ("aughts", "era:00s"),
   ("modern", "era:modern"), ("contemporary", "era:modern"), ("recent", "era:modern"),
   ("outsider", "char:outsider"), ("homemade", "char:outsider"), ("diy", "char:outsider"), ("bedroom", "char:outsider"),
   ("protest", "char:political"),
   ("intimate", "char:intimate"), ("personal", "char:intimate"), ("close", "char:intimate"),
   ("beautiful", "char:beautiful"), ("gorgeous", "char:beautiful"),
   ("late night", "char:late-night"), ("night", "char:late-night"), ("midnight", "char:late-night"), ("2am", "char:late-night"),
   ("danceable", "char:danceable"),
   ("nostalgic", "char:nostalgic"), ("nostalgia", "char:nostalgic"), ("vintage", "char:nostalgic"), ("retro", "char:nostalgic")]

/-- A resolved query: trait targets `traitId → query weight` (a JS `Map`,
modelled as an association list in insertion order) plus the unresolved raw
keywords, in order. -/
structure Query where
  targets : List (String × Rat)
  raws : List String
deriving Repr, DecidableEq

/-- `traitTargets.set(k, Math.max(traitTargets.get(k) || 0, v))`, keeping
the existing position of the key as a JS `Map` does. -/
def mapSetMax : List (String × Rat) → String → Rat → List (String × Rat)
  | [], k, v => [(k, v)]
  | (k', v') :: rest, k, v =>
    if k' = k then (k', max v' v) :: rest else (k', v') :: mapSetMax rest k v

/-- One iteration of the keyword-resolution loop at the top of `scoreSongs`. -/
def resolveStep (acc : List (String × Rat) × List String) (kw : String) :
    List (String × Rat) × List String :=
  let kwLower := strTrim ⟨lowerData kw⟩
  if kwLower.data.contains ':' ∧ ¬"http".data.isPrefixOf kwLower.data then
    (mapSetMax acc.1 kwLower 1, acc.2)
  else
    match (TRAIT_ALIASES.find? (fun p => p.1 == kwLower)).map (·.2) with
    | some traitId => (mapSetMax acc.1 traitId 1, acc.2)
    | none =>
      match TRAIT_ALIASES.find? (fun p => strIncludes p.1 kwLower ∨ strIncludes kwLower p.1) with
      | some p => (mapSetMax acc.1 p.2 (7/10 : Rat), acc.2)
      | none => (acc.1, acc.2 ++ [kwLower])

/-- Map the incoming keywords to trait targets and raw keywords. -/
def resolveKeywords (keywords : List String) : Query :=
  let r := keywords.foldl resolveStep ([], [])
  ⟨r.1, r.2⟩

/-- Split character data at every occurrence of a character (JS
`String.prototype.split` with a single-character separator). -/
def splitEvery (ch : Char) : List Char → List (List Char)
  | [] => [[]]
  | c :: rest =>
    match splitEvery ch rest with
    | h :: t => if c = ch then [] :: h :: t else (c :: h) :: t
    | [] => [[]]

/-- `traitId.split(':')[1] || traitId`. -/
def traitLabel (t : String) : String :=
  match splitEvery ':' t.data with
  | _ :: second :: _ => if second = [] then t else ⟨second⟩
  | _ => t

/-- The `but`-modifier weight overrides (`reduce` dampens the clause before
`but`, `boost` strengthens the one after). -/
structure ButOverrides where
  reduce : String
  boost : String
deriving Repr, DecidableEq

/-- Apply the but-modifier to the trait-target map. -/
def applyBut (bo : Option ButOverrides) (targets : List (String × Rat)) :
    List (String × Rat) :=
  match bo with
  | none => targets
  | some o =>
    targets.map fun p =>
      let lbl := traitLabel p.1
      let w1 := if strIncludes o.reduce lbl ∨ strIncludes lbl o.reduce then p.2 * (3/10 : Rat) else p.2
      let w2 := if strIncludes o.boost lbl ∨ strIncludes lbl o.boost then min (w1 * (3/2 : Rat)) (3/2 : Rat) else w1
      (p.1, w2)

/-- Per-keyword contribution of the raw-keyword fallback pass: genre words
never match, keywords under 4 characters never match, then word-boundary
tests against title, artist, commentary in that order (commentary gated by
the stopword set). -/
def rawKwScore (g : Song) (kw : String) : Rat :=
  if GENRE_WORDS.contains kw then 0
  else if kw.length < 4 then 0
  else if wbTest kw (normalize g.title) then (8/10 : Rat)
  else if wbTest kw (normalize g.artist) then (8/10 : Rat)
  else if ¬COMMENTARY_STOPWORDS.contains kw ∧ wbTest kw (normalize g.commentary) then (3/10 : Rat)
  else 0

/-- Primary scoring: sum of `song trait weight × query weight` over matched
trait targets. -/
def traitScore (targets : List (String × Rat)) (traits : List (String × Rat)) : Rat :=
  targets.foldl
    (fun acc p =>
      match traitLookup traits p.1 with
      | some tw => acc + tw * p.2
      | none => acc)
    0

/-- Secondary scoring: raw-keyword fallback (the source guards the block
with `rawKeywords.length > 0`; an empty list contributes 0 either way). -/
def rawScore (raws : List String) (g : Song) : Rat :=
  if raws.length > 0 then raws.foldl (fun acc kw => acc + rawKwScore g kw) 0 else 0

/-- The era trait id derived from a year:
``era:${decade % 100 || decade}s`` with `'era:0s'` rewritten to `'era:00s'`
(the replacement fires exactly when the built string is `"era:0s"`). -/
def eraIdOf (y : Int) : String :=
  let decade := (y / 10) * 10
  let m := decade % 100
  let base := if m ≠ 0 then "era:" ++ toString m ++ "s" else "era:" ++ toString decade ++ "s"
  if base = "era:0s" then "era:00s" else base

/-- JS falsiness of `traits[eraId]`: absent or zero. -/
def traitFalsy (ts : List (String × Rat)) (k : String) : Bool :=
  match traitLookup ts k with
  | none => true
  | some w => w == 0

/-- Year/decade partial credit: 0.5 when the requested era matches the
song's year but the era trait is not set on the song. -/
def eraScore (targets : List (String × Rat)) (g : Song) : Rat :=
  match g.year with
  | some y =>
    if targets.any (fun p => p.1 == eraIdOf y) ∧ traitFalsy g.traits (eraIdOf y) then (1/2 : Rat) else 0
  | none => 0

/-- Video-preference bonus: +5 for songs with a YouTube embed. -/
def videoScore (preferVideo : Bool) (g : Song) : Rat :=
  if preferVideo ∧ g.isYT then 5 else 0

/-- The total score of one song against a resolved query (the body of the
`songs.map` in `scoreSongs`). -/
def scoreSong (q : Query) (preferVideo : Bool) (g : Song) : Rat :=
  traitScore q.targets g.traits + rawScore q.raws g + eraScore q.targets g + videoScore preferVideo g

/-- `scoreSongs(songs, keywords, preferVideo, butWeightOverrides)`: resolve
the keywords, apply the but-modifier, and score every candidate. -/
def scoreSongs (songs : List Song) (keywords : List String) (preferVideo : Bool)
    (bo : Option ButOverrides) : List (Song × Rat) :=
  let q0 := resolveKeywords keywords
  let q : Query := ⟨applyBut bo q0.targets, q0.raws⟩
  songs.map fun g => (g, scoreSong q preferVideo g)

/-- Per-session mutable state (`getSession` shape). -/
structure Session where
  playedSongs : List String
  lastSongTraits : Option (List (String × Rat))
  lastSongArtist : Option String
  lastSong : Option Song
  songCount : Nat
  askedMoreOf : Bool
  lastInterruptSong : Nat
  pendingRelatedSong : Option String
  pendingBridge : Option String
deriving Repr, DecidableEq

/-- A fresh session as created on first contact. -/
def freshSession : Session :=
  ⟨[], none, none, none, 0, false, 0, none, none⟩

/-- The track view sent to the client. -/
structure SongView where
  title : String
  artist : String
  spotify_url : String
  tag_title : String
  tag_url : String
deriving Repr, DecidableEq

/-- Build the client-facing view of a song. -/
def songView (g : Song) : SongView :=
  ⟨g.title, g.artist, getSongUrl g, g.tag_title, g.tag_url⟩

/-- An interrupt attached to a response. -/
structure Interrupt where
  type : String
  message : String
  options : List String
  isBridge : Bool
deriving Repr, DecidableEq

/-- The JSON body of a chat/favorite response. -/
structure ChatResp where
  response : Option String
  song : Option SongView
  interrupt : Option Interrupt
  bridgingResponse : Option String
deriving Repr, DecidableEq

/-- A response with only text (song, interrupt and bridge all null). -/
def textResp (t : String) : ChatResp := ⟨some t, none, none, none⟩

/-- Outcome of handling one request: a JSON reply with the resulting session
state, or the route-level catch (HTTP 500) with the session as it stood when
the exception was thrown. -/
inductive ChatResult where
  | ok (resp : ChatResp) (s : Session)
  | serverErr (s : Session)
deriving Repr, DecidableEq

/-- The session carried by a result. -/
def sessionOf : ChatResult → Session
  | .ok _ s => s
  | .serverErr s => s

/-- `pool[Math.floor(Math.random() * pool.length)]`, with the random draw
replaced by an explicit index reduced mod the pool size. -/
def pickL (l : List α) (n : Nat) : Option α :=
  l.get? (n % l.length)

/-- `Math.max(...l)` for a list known (at call sites) to be non-empty. -/
def maxOfD (l : List Rat) : Rat :=
  match l with
  | [] => 0
  | x :: xs => xs.foldl max x

/-- `Math.max(0, ...l)`. -/
def maxOf0 (l : List Rat) : Rat := l.foldl max 0

/-- `pickTopScoring(pool)`: null for an empty pool, else a random element
among those sharing the maximal score. -/
def pickTopScoring (pool : List (Song × Rat)) (n : Nat) : Option (Song × Rat) :=
  match pool with
  | [] => none
  | _ =>
    let top := maxOfD (pool.map (·.2))
    let picks := pool.filter (fun p => p.2 == top)
    pickL picks n

/-- The unplayed subset: `songsData.songs.filter(s => !session.playedSongs.includes(s.title))`. -/
def availableSongs (cat : List Song) (played : List String) : List Song :=
  cat.filter fun g => decide (g.title ∉ played)

/-- The signal pattern required before a short single-word artist name may
match: ``\bby\s+<artist>\b`` or ``\b<artist>\s+(song|music|track|band|album)\b``,
case-insensitively, against the raw message. -/
def signalTest (message aN : String) : Bool :=
  let cs := lowerData message
  let a := aN.toList
  let pat1 := (List.range (cs.length + 1)).any fun i =>
    boundaryAt cs i && ("by".toList.isPrefixOf (cs.drop i)) &&
    ((List.range (cs.length + 1)).any fun k =>
      decide (1 ≤ k) && decide (k ≤ (cs.drop (i + 2)).length) &&
      ((cs.drop (i + 2)).take k).all (·.isWhitespace) &&
      a.isPrefixOf (cs.drop (i + 2 + k)) && boundaryAt cs (i + 2 + k + a.length))
  let pat2 := (List.range (cs.length + 1)).any fun i =>
    boundaryAt cs i && a.isPrefixOf (cs.drop i) &&
    ((List.range (cs.length + 1)).any fun k =>
      decide (1 ≤ k) && decide (k ≤ (cs.drop (i + a.length)).length) &&
      ((cs.drop (i + a.length)).take k).all (·.isWhitespace) &&
      (["song", "music", "track", "band", "album"].any fun w =>
        (w.toList).isPrefixOf (cs.drop (i + a.length + k)) &&
        boundaryAt cs (i + a.length + k + w.length)))
  pat1 || pat2

/-- The distinct artist names of the catalog, longest first (a stable sort,
as JS engines provide; ties keep first-occurrence order). -/
def sortedArtists (cat : List Song) : List String :=
  List.insertionSort (fun a b : String => b.length < a.length)
    ((cat.map (·.artist)).dedup)

/-- Pass 1 of `findSongsByArtist`: bidirectional substring containment, with
the explicit-signal guard on single-word artist names under 5 characters. -/
def artistPass1 (message msgNorm : String) (isMultiWord : Bool) (artist : String) : Bool :=
  let aN := normalize artist
  let isSingleShortWord := ¬aN.data.contains ' ' ∧ aN.length < 5
  (if isSingleShortWord then signalTest message aN else true) &&
  (strIncludes msgNorm aN || (isMultiWord && strIncludes aN msgNorm))

/-- Pass 2 of `findSongsByArtist`: overlap on meaningful artist-name words
(length ≥ 5, not genre words, not artist stopwords); for a multi-word
message all meaningful words must appear, for a single-word message any. -/
def artistPass2 (msgWords : List String) (isMultiWord : Bool) (artist : String) : Bool :=
  let aN := normalize artist
  let meaningful := (jsSplitWs aN).filter fun w =>
    decide (w.length ≥ 5) && ¬GENRE_WORDS.contains w && ¬ARTIST_STOPWORDS.contains w
  decide (meaningful.length ≠ 0) &&
  (if isMultiWord then meaningful.all (msgWords.contains ·)
   else meaningful.any (msgWords.contains ·))

/-- `findSongsByArtist(message)`: two-pass artist resolution over the
longest-first distinct artist list; on a hit, all catalog songs by that
artist (null when nothing matches). -/
def findSongsByArtist (cat : List Song) (message : String) : Option (List Song) :=
  let msgNorm := normalize message
  let msgWords := (jsSplitWs msgNorm).dedup
  let isMultiWord := msgWords.length ≥ 2
  let artists := sortedArtists cat
  match artists.find? (artistPass1 message msgNorm isMultiWord) with
  | some artist => some (cat.filter fun g => normalize g.artist == normalize artist)
  | none =>
    match artists.find? (artistPass2 msgWords isMultiWord) with
    | some artist => some (cat.filter fun g => normalize g.artist == normalize artist)
    | none => none

/-- `extractKeywords` / `extractArtistTraits` result processing.  The
`anthropic.messages.create` await sits OUTSIDE the try/catch in the source,
so a rejected call (`none`) propagates as an exception; only a fulfilled
call whose text fails to parse (`some none`) is caught and degraded to `[]`.
A parsed array (`some (some raw)`) is lowercased, trimmed and filtered to
entries of length ≥ 2. -/
def extractKeywords (call : Option (Option (List String))) : Option (List String) :=
  match call with
  | none => none
  | some none => some []
  | some (some raw) =>
    some ((raw.map fun k => strTrim ⟨lowerData k⟩).filter fun k => k.length ≥ 2)

/-- A curated bridge record (`{to, toArtist, bridge}`; the `to` field is
named `toTitle` here because `to` is reserved in Lean). -/
structure Bridge where
  toTitle : String
  toArtist : String
  bridge : String
deriving Repr, DecidableEq

/-- `findBridge`: the manual bridges file was removed, so the source
function unconditionally returns null (it ignores its call-site
arguments). -/
def findBridge (_g : Song) (_dest : Option Song) : Option Bridge := none

/-- Traits too generic to drive a related-song suggestion. -/
def WEAK_RELATION_TRAITS : List String :=
  ["char:nostalgic", "char:beautiful", "texture:warm", "era:60s", "era:70s",
   "era:80s", "era:90s", "era:00s", "era:50s", "era:modern"]

/-- Meaningful trait overlap between the last song's traits and a candidate:
sum of paired weight products over traits outside the weak set. -/
def overlapScore (lastTraits sTraits : List (String × Rat)) : Rat :=
  lastTraits.foldl
    (fun acc p =>
      if WEAK_RELATION_TRAITS.contains p.1 then acc
      else
        match traitLookup sTraits p.1 with
        | some sw => acc + p.2 * sw
        | none => acc)
    0

/-- `findRelatedSong(lastSong, playedTitles)`: best unplayed, different-artist
song whose meaningful overlap is at least 1.2 (strictly improving scan). -/
def findRelatedSong (cat : List Song) (lastSong : Song) (playedTitles : List String) :
    Option Song :=
  (cat.foldl
    (fun (acc : Option Song × Rat) g =>
      if playedTitles.contains g.title then acc
      else if normalize g.artist == normalize lastSong.artist then acc
      else
        let ov := overlapScore lastSong.traits g.traits
        if ov ≥ (6/5 : Rat) ∧ ov > acc.2 then (some g, ov) else acc)
    (none, 0)).1

/-- A labelled trait option for dynamic interrupt buttons. -/
structure TraitOption where
  label : String
  trait : String
deriving Repr, DecidableEq

/-- `COLLECTION_TRAIT_OPTIONS`. -/
def COLLECTION_TRAIT_OPTIONS : List TraitOption :=
  [⟨"Jazz", "genre:jazz"⟩, ⟨"Electronic", "genre:electronic"⟩,
   ⟨"Folk", "genre:folk"⟩, ⟨"Punk", "genre:punk"⟩, ⟨"Soul", "genre:soul"⟩,
   ⟨"Hip-Hop", "genre:hip-hop"⟩, ⟨"Ambient", "genre:ambient"⟩,
   ⟨"Funk", "genre:funk"⟩, ⟨"Experimental", "genre:experimental"⟩,
   ⟨"Latin", "genre:latin"⟩, ⟨"Afrobeat", "genre:afrobeat"⟩,
   ⟨"Dance", "genre:dance"⟩, ⟨"Late Night", "char:late-night"⟩,
   ⟨"Outsider", "char:outsider"⟩, ⟨"Melancholic", "mood:melancholic"⟩,
   ⟨"Joyful", "mood:joyful"⟩]

/-- `getDynamicOptions(justPlayedSong, playedTitles)`: contrasting trait
labels — skip traits the just-played song already carries at ≥ 0.7, require
at least 2 unplayed songs carrying the trait at ≥ 0.5; then a random shuffle
(the explicit `shuffle` parameter), the first 3, mapped to labels.
(A JS comparison against `undefined` is false, so the weight tests read the
trait weight with default 0.) -/
def getDynamicOptions (cat : List Song) (shuffle : List TraitOption → List TraitOption)
    (justPlayed : Song) (played : List String) : List String :=
  let contrasting := COLLECTION_TRAIT_OPTIONS.filter fun opt =>
    ¬((traitLookup justPlayed.traits opt.trait).getD 0 ≥ (7/10 : Rat)) ∧
    ((cat.filter fun g =>
        decide (g.title ∉ played) &&
        decide ((traitLookup g.traits opt.trait).getD 0 ≥ (1/2 : Rat))).length ≥ 2)
  ((shuffle contrasting).take 3).map (·.label)

/-- `decideInterrupt(session, justPlayedSong)`: the per-track interrupt
decision, returning the interrupt (or null) together with the session as
mutated by the decision.  Note that the vibe-check and more-of branches
update `lastInterruptSong` (and `askedMoreOf`) BEFORE checking whether
enough dynamic options exist. -/
def decideInterrupt (cat : List Song) (shuffle : List TraitOption → List TraitOption)
    (s : Session) (justPlayed : Song) : Option Interrupt × Session :=
  let count := s.songCount
  let sinceLastInterrupt : Int := (count : Int) - (s.lastInterruptSong : Int)
  if sinceLastInterrupt < 3 then (none, s)
  else
    let related :=
      if count ≥ 5 ∧ sinceLastInterrupt ≥ 4 then findRelatedSong cat justPlayed s.playedSongs
      else none
    match related with
    | some rel =>
      let bridge := findBridge justPlayed (some rel)
      let s1 := { s with lastInterruptSong := count,
                         pendingRelatedSong := some rel.title,
                         pendingBridge := bridge.map (·.bridge) }
      (some ⟨"related",
             (match bridge with
              | some _ => "This reminds me of another song — want to hear it?"
              | none => "Oh, this reminds me of another song — want to hear it?"),
             ["Okay", "No thank you"], false⟩, s1)
    | none =>
      if count ≥ 9 ∧ (count - 9) % 4 = 0 ∧ sinceLastInterrupt ≥ 4 then
        let s1 := { s with lastInterruptSong := count }
        let options := getDynamicOptions cat shuffle justPlayed s.playedSongs
        if options.length < 2 then (none, s1)
        else (some ⟨"vibe_check", "Want to go somewhere different?", options, false⟩, s1)
      else if count ≥ 12 ∧ ¬s.askedMoreOf ∧ sinceLastInterrupt ≥ 4 then
        let s1 := { s with askedMoreOf := true, lastInterruptSong := count }
        let options := getDynamicOptions cat shuffle justPlayed s.playedSongs
        if options.length < 2 then (none, s1)
        else (some ⟨"more_of", "What else are you in the mood for?", options, false⟩, s1)
      else (none, s)

/-- `buildSongResponse(song, session, interrupt, bridge)`: push the track to
play history, update last-song fields, bump the counter, then (when no
interrupt was supplied) try a curated bridge and otherwise consult the
interrupt scheduler.  (`findBridge` always returns null in the source, so
the curated-bridge arm is dead code and `decideInterrupt` decides.) -/
def buildSongResponse (cat : List Song) (shuffle : List TraitOption → List TraitOption)
    (g : Song) (s : Session) (interrupt : Option Interrupt) (bridge : Option String) :
    ChatResult :=
  let s1 := { s with playedSongs := s.playedSongs ++ [g.title],
                     lastSong := some g,
                     lastSongTraits := some g.traits,
                     lastSongArtist := some g.artist,
                     songCount := s.songCount + 1 }
  let r :=
    match interrupt with
    | some i => (some i, s1)
    | none =>
      match findBridge g none with
      | some bm =>
        match cat.find? (fun (g2 : Song) =>
            (normalize g2.title == normalize bm.toTitle) &&
            (normalize g2.artist == normalize bm.toArtist) &&
            !s1.playedSongs.contains g2.title) with
        | some bridgeDest =>
          (some ⟨"related", "This reminds me of another song — want to hear it?",
                 ["Okay", "No thank you"], true⟩,
           { s1 with pendingBridge := some bm.bridge,
                     pendingRelatedSong := some bridgeDest.title,
                     lastInterruptSong := s1.songCount })
        | none => decideInterrupt cat shuffle s1 g
      | none => decideInterrupt cat shuffle s1 g
  .ok ⟨some g.commentary, some (songView g), r.1, bridge⟩ r.2

/-- `findFavoriteInCollection(input)`: first song whose artist is in a
bidirectional substring relation with the input, else first such title
match; the Bool records artist (true) vs title (false) match. -/
def findFavoriteInCollection (cat : List Song) (input : String) :
    Option (Song × Bool) :=
  let norm := normalize input
  match cat.find? (fun g => strIncludes (normalize g.artist) norm || strIncludes norm (normalize g.artist)) with
  | some g => some (g, true)
  | none =>
    match cat.find? (fun g => strIncludes (normalize g.title) norm || strIncludes norm (normalize g.title)) with
    | some g => some (g, false)
    | none => none

/-- The `/api/favorite` handler.  `persona` is the
`generateFavoriteResponse` oracle (`none` = the call rejected, caught by the
route and turned into HTTP 500).  The favorites-file append is external
I/O with no effect on session state. -/
def handleFavorite (cat : List Song) (persona : Option String) (input : String)
    (s : Session) : ChatResult :=
  if strTrim input = "" then
    .ok (textResp "Tell me something and I\x27ll see what I\x27ve got.") s
  else
    let collectionMatch := findFavoriteInCollection cat input
    match persona with
    | none => .serverErr s
    | some responseText =>
      match collectionMatch with
      | some (g, _) =>
        if s.playedSongs.contains g.title then
          .ok (textResp responseText) s
        else
          let s1 := { s with playedSongs := s.playedSongs ++ [g.title],
                             lastSong := some g,
                             lastSongTraits := some g.traits,
                             lastSongArtist := some g.artist,
                             songCount := s.songCount + 1 }
          .ok ⟨some responseText, some (songView g), none, none⟩ s1
      | none => .ok (textResp responseText) s

/-- `extractArtistTraits` has the same await-outside-try shape and the same
parse/normalize post-processing as `extractKeywords`. -/
def extractArtistTraits (call : Option (Option (List String))) : Option (List String) :=
  extractKeywords call

/-- Outcomes of the fixed per-message regular-expression detectors and
pattern captures of the chat route, supplied as inputs (each is a pure
function of the message text alone). -/
structure MsgFlags where
  favoriteAsk : Bool
  isNegative : Bool
  isAffirmation : Bool
  playbackQ : Bool
  appleQ : Bool
  whyYoutubeQ : Bool
  offScript : Bool
  isMore : Bool
  isVideo : Bool
  isConversational : Bool
  playMeTitle : Option String
  likeArtist : Option (String × Bool)
  butClause : Option (String × String)
  hardNoMatch : Option String
  noMatchQuick : Option String
deriving Repr, DecidableEq

/-- A `MsgFlags` record with every detector negative (a plain descriptive
message). -/
def plainFlags : MsgFlags :=
  ⟨false, false, false, false, false, false, false, false, false, false,
   none, none, none, none, none⟩

/-- The external language-service calls made while handling one message. -/
structure Oracle where
  artistTraits : Option (Option (List String))
  keywords : Option (Option (List String))
  persona : Option String

/-- The random draws made while handling one message. -/
structure Rnd where
  textIdx : Nat
  songIdx : Nat
  shuffle : List TraitOption → List TraitOption

/-- All per-message inputs of the chat route. -/
structure ChatCtx where
  cat : List Song
  fl : MsgFlags
  orc : Oracle
  rnd : Rnd
  message : String

/-- `message.toLowerCase().trim()`. -/
def msgLower (c : ChatCtx) : String := strTrim ⟨lowerData c.message⟩

/-- Pick from a fixed reply list by random index. -/
def pickD (l : List String) (n : Nat) : String := (pickL l n).getD ""

/-- Control flow between the early-return blocks of the chat route. -/
inductive Step where
  | done (r : ChatResult)
  | cont (s : Session)
deriving Repr, DecidableEq

/-- The favorite-question redirects. -/
def FAVORITE_REDIRECTS : List String :=
  ["Honestly, they\x27re all favorites in different ways — is there a genre, mood, or era you want to explore?",
   "That\x27s a trap, I can\x27t pick just one. What are you feeling right now?",
   "Hard to say. Give me a vibe and I\x27ll find you something good.",
   "Too many to count. What kind of mood are you in?"]

/-- Replies to a plain "no"-style message. -/
def NO_WORRIES_REPLIES : List String :=
  ["No worries — what do you want to hear next?",
   "All good. What are you in the mood for?",
   "That\x27s fine. Keep asking."]

/-- Replies to a negative reaction, referencing the last track if any. -/
def negativeReplies : Option Song → List String
  | some g =>
    ["Fair enough — " ++ g.artist ++ " isn\x27t for everyone. What are you in the mood for instead?",
     "No worries. What direction do you want to go?",
     "Got it. What would hit better right now?"]
  | none => ["No worries. What are you in the mood for?"]

/-- Replies to an affirmation, referencing the last track if any. -/
def affirmationReplies : Option Song → List String
  | some g =>
    ["Yeah, " ++ g.title ++ " is a good one. What are you in the mood for next?",
     "Right? " ++ g.artist ++ " doesn\x27t miss. What do you want to hear next?",
     "Glad that one landed. What else are you feeling?",
     g.title ++ " holds up every time. What are you feeling next?"]
  | none =>
    ["Right? Keep going — what else are you in the mood for?",
     "Good stuff. What do you want to hear next?",
     "Yeah. What else can I find you?",
     "Glad it landed. What are you feeling next?"]

/-- The 30-second-preview explanation. -/
def PLAYBACK_REPLY : String :=
  "Spotify only lets me embed 30-second previews here — but if you\x27re logged in you can save any track and hear it in full on Spotify. Apple Music support with full playback is something I\x27m working on adding."

/-- The Apple Music answer. -/
def APPLE_REPLY : String :=
  "Apple Music support is something I\x27m working on — the plan is to let you switch players and hear full tracks without needing Spotify. Not live yet though."

/-- The generic no-match lines of `generateNoMatchResponse`. -/
def NO_MATCH_LINES : List String :=
  ["Can\x27t think of anything like that.",
   "I\x27m not remembering anything that fits.",
   "Can\x27t remember anything like that.",
   "Nothing\x27s coming to mind for that.",
   "I don\x27t remember having anything like that."]

/-- `session.lastSong || songsData.songs[0]` — null when the session has no
last song AND the catalog is empty, in which case the subsequent property
access throws (modelled as the route-level 500). -/
def fallbackSong (cat : List Song) (s : Session) : Option Song :=
  match s.lastSong with
  | some g => some g
  | none => cat.head?

/-- Input guards, exhaustion guard and the favorite-question redirect. -/
def chatPhase1 (c : ChatCtx) (s : Session) : Step :=
  if strTrim c.message = "" then
    .done (.ok (textResp "Say something and I\x27ll find you a song.") s)
  else if c.message.length > 500 then
    .done (.ok (textResp "Keep it short — I just need a vibe, not an essay.") s)
  else if s.playedSongs.length ≥ c.cat.length then
    .done (.ok (textResp "That\x27s the whole collection — nothing left I haven\x27t played you.") s)
  else if c.fl.favoriteAsk then
    .done (.ok (textResp (pickD FAVORITE_REDIRECTS c.rnd.textIdx)) s)
  else .cont s

/-- The "keep this vibe" button: re-score the unplayed set against the last
song's traits, prefer a different artist, pick among the top scorers. -/
def chatPhase2 (c : ChatCtx) (s : Session) : Step :=
  if msgLower c = "keep this vibe" ∧ (s.lastSongTraits).isSome then
    let traitKeywords := (s.lastSongTraits.getD []).map (·.1)
    let scored := (scoreSongs (availableSongs c.cat s.playedSongs) traitKeywords false none).filter
      fun p => decide (p.2 > 0)
    let diff :=
      match s.lastSongArtist with
      | some a => scored.filter fun p => decide (p.1.artist ≠ a)
      | none => scored
    match pickTopScoring (if diff.length ≠ 0 then diff else scored) c.rnd.songIdx with
    | some p => .done (buildSongResponse c.cat c.rnd.shuffle p.1 s none none)
    | none => .cont s
  else .cont s

/-- Pending-suggestion resolution buttons and the fixed conversational
replies (decline, plain no, negative reaction, affirmation, playback and
Apple Music questions).  Accepting a pending suggestion clears the pending
slot even when the stored title can no longer be served. -/
def chatPhase3 (c : ChatCtx) (s : Session) : Step :=
  let ml := msgLower c
  if (ml = "okay" ∨ ml = "tell me more" ∨ ml = "play it") ∧ truthyS s.pendingRelatedSong then
    let related := c.cat.find? fun g => g.title == s.pendingRelatedSong.getD ""
    let bridgeText := if truthyS s.pendingBridge then s.pendingBridge else none
    let s1 := { s with pendingRelatedSong := none, pendingBridge := none }
    match related with
    | some g =>
      if ¬s1.playedSongs.contains g.title then
        .done (buildSongResponse c.cat c.rnd.shuffle g s1 none bridgeText)
      else .cont s1
    | none => .cont s1
  else if ml = "no thank you" ∨ ml = "not right now" ∨ ml = "maybe later" then
    .done (.ok (textResp "No problem — keep exploring.") { s with pendingRelatedSong := none })
  else if ml = "no" ∨ ml = "i don\x27t" ∨ ml = "not sure" ∨ ml = "idk" then
    .done (.ok (textResp (pickD NO_WORRIES_REPLIES c.rnd.textIdx)) s)
  else if c.fl.isNegative then
    .done (.ok (textResp (pickD (negativeReplies s.lastSong) c.rnd.textIdx)) s)
  else if c.fl.isAffirmation then
    .done (.ok (textResp (pickD (affirmationReplies s.lastSong) c.rnd.textIdx)) s)
  else if c.fl.playbackQ then
    .done (.ok (textResp PLAYBACK_REPLY) s)
  else if c.fl.appleQ then
    .done (.ok (textResp APPLE_REPLY) s)
  else .cont s

/-- The two branches that await a persona reply from the language service
(the why-YouTube question and off-script questions); a rejected call
propagates to the route-level catch. -/
def chatPhase4 (c : ChatCtx) (s : Session) : Step :=
  if c.fl.whyYoutubeQ then
    match c.orc.persona with
    | none => .done (.serverErr s)
    | some reply => .done (.ok (textResp reply) s)
  else if c.fl.offScript then
    match c.orc.persona with
    | none => .done (.serverErr s)
    | some reply => .done (.ok (textResp reply) s)
  else .cont s

/-- "More of that energy" / "something slower" / "something weirder", the
free-form more-request, and the direct "play <title>" imperative. -/
def chatPhase5 (c : ChatCtx) (s : Session) : Step :=
  let ml := msgLower c
  let available := availableSongs c.cat s.playedSongs
  if ml = "more of that energy" ∧ (s.lastSongTraits).isSome then
    let traitKeywords := (s.lastSongTraits.getD []).map (·.1)
    let scored := (scoreSongs available traitKeywords false none).filter fun p => decide (p.2 > 0)
    match pickTopScoring scored c.rnd.songIdx with
    | some p => .done (buildSongResponse c.cat c.rnd.shuffle p.1 s none none)
    | none => .cont s
  else if ml = "something slower" then
    let scored := (scoreSongs available ["energy:low", "texture:sparse", "mood:melancholic", "char:intimate"] false none).filter
      fun p => decide (p.2 > 0)
    if scored.length ≠ 0 then
      match pickL scored c.rnd.songIdx with
      | some p => .done (buildSongResponse c.cat c.rnd.shuffle p.1 s none none)
      | none => .done (.serverErr s)
    else .cont s
  else if ml = "something weirder" then
    let scored := (scoreSongs available ["char:outsider", "char:weird", "genre:experimental", "texture:lo-fi"] false none).filter
      fun p => decide (p.2 > 0)
    if scored.length ≠ 0 then
      match pickL scored c.rnd.songIdx with
      | some p => .done (buildSongResponse c.cat c.rnd.shuffle p.1 s none none)
      | none => .done (.serverErr s)
    else .cont s
  else if c.fl.isMore ∧ (s.lastSongTraits).isSome then
    let traitKeywords := (s.lastSongTraits.getD []).map (·.1)
    let scored := (scoreSongs available traitKeywords false none).filter fun p => decide (p.2 > 0)
    let diff :=
      match s.lastSongArtist with
      | some a => scored.filter fun p => decide (p.1.artist ≠ a)
      | none => scored
    match pickTopScoring (if diff.length ≠ 0 then diff else scored) c.rnd.songIdx with
    | some p => .done (buildSongResponse c.cat c.rnd.shuffle p.1 s none none)
    | none => .cont s
  else
    match c.fl.playMeTitle with
    | some t =>
      let requestedTitle := normalize (strTrim t)
      match c.cat.find? (fun g => decide (g.title ∉ s.playedSongs) && (normalize g.title == requestedTitle)) with
      | some g => .done (buildSongResponse c.cat c.rnd.shuffle g s none none)
      | none => .cont s
    | none => .cont s

/-- The unplayed candidates for a like-artist query, with the reference
artist itself excluded, scored against the artist traits. -/
def likeScored (cat : List Song) (kws : List String) (likeNorm : String)
    (played : List String) : List (Song × Rat) :=
  scoreSongs ((availableSongs cat played).filter fun g => decide (normalize g.artist ≠ likeNorm))
    kws false none

/-- The negated-request candidate list: scores inverted against the maximum
(`maxScore - score`), kept non-negative, sorted descending by inverted score
(i.e. ascending by original score). -/
def negatedSorted (cat : List Song) (kws : List String) (likeNorm : String)
    (played : List String) : List (Song × Rat) :=
  let avScored := likeScored cat kws likeNorm played
  let maxS := maxOf0 (avScored.map (·.2))
  let inverted := (avScored.map fun p => (p.1, maxS - p.2)).filter fun p => decide (p.2 ≥ 0)
  List.insertionSort (fun a b : Song × Rat => b.2 ≤ a.2) inverted

/-- `Math.max(5, Math.floor(inverted.length * 0.2))`: the size of the
most-unlike pool (20 percent of the candidates, at least 5). -/
def negatedTopN (cat : List Song) (kws : List String) (likeNorm : String)
    (played : List String) : Nat :=
  max 5 ((negatedSorted cat kws likeNorm played).length / 5)

/-- The like-artist branch: fetch the reference artist's traits from the
language service, then either serve from the most-unlike pool (negated) or
from the 0.85-band of top scorers (plain), always excluding the reference
artist; empty traits or no match ≥ 0.4 falls through to the regular flow. -/
def likeArtistBranch (cat : List Song) (rnd : Rnd) (likeArtistName : String)
    (negated : Bool) (traitsCall : Option (Option (List String))) (s : Session) : Step :=
  match extractArtistTraits traitsCall with
  | none => .done (.serverErr s)
  | some artistKeywords =>
    if artistKeywords.length > 0 then
      let likeArtistNorm := normalize likeArtistName
      if negated then
        let sorted := negatedSorted cat artistKeywords likeArtistNorm s.playedSongs
        let pool := sorted.take (negatedTopN cat artistKeywords likeArtistNorm s.playedSongs)
        match pickL pool rnd.songIdx with
        | some p => .done (buildSongResponse cat rnd.shuffle p.1 s none none)
        | none => .done (.serverErr s)
      else
        let avScored := likeScored cat artistKeywords likeArtistNorm s.playedSongs
        let avMatches := avScored.filter fun p => decide (p.2 ≥ (2/5 : Rat))
        if avMatches.length ≠ 0 then
          let top := maxOfD (avMatches.map (·.2))
          let topPicks := avMatches.filter fun p => decide (p.2 ≥ top * (17/20 : Rat))
          match pickL topPicks rnd.songIdx with
          | some p => .done (buildSongResponse cat rnd.shuffle p.1 s none none)
          | none => .done (.serverErr s)
        else .cont s
    else .cont s

/-- Dispatch to the like-artist branch when the detector matched. -/
def chatPhase6 (c : ChatCtx) (s : Session) : Step :=
  match c.fl.likeArtist with
  | some la => likeArtistBranch c.cat c.rnd la.1 la.2 c.orc.artistTraits s
  | none => .cont s

/-- Direct artist lookup against the catalog. -/
def chatPhase7 (c : ChatCtx) (s : Session) : Step :=
  match findSongsByArtist c.cat c.message with
  | some artistSongs =>
    let av := artistSongs.filter fun g => decide (g.title ∉ s.playedSongs)
    if av.length ≠ 0 then
      match pickL av c.rnd.songIdx with
      | some g => .done (buildSongResponse c.cat c.rnd.shuffle g s none none)
      | none => .done (.serverErr s)
    else .cont s
  | none => .cont s

/-- `TITLE_MATCH_STOPWORDS`. -/
def TITLE_MATCH_STOPWORDS : List String :=
  ["song", "music", "track", "tune", "play", "hear", "listen", "find",
   "give", "want", "need", "show", "another", "more", "that", "this",
   "like", "love", "good", "great", "nice", "best", "cool", "bad",
   "new", "old", "some", "any", "just", "know", "feel",
   "something", "anything", "everything", "nothing", "someone", "anyone",
   "somewhere", "sometime", "somehow", "somebody", "nobody",
   "pop", "body", "rock", "soul", "mind", "life", "time", "day",
   "girl", "girls", "boy", "boys", "man", "woman", "baby", "home",
   "fire", "rain", "sun", "moon", "star", "night", "dark", "light",
   "ride", "walk", "run", "come", "gone", "lost", "back", "down",
   "heart", "eyes", "hand", "face", "head", "world", "away",
   "favorite", "favourite",
   "can", "let", "get", "got", "set", "put", "see", "say", "use",
   "try", "hit", "big", "low", "high", "hot", "cold",
   "love", "pop"]

/-- The tail of the route: keyword extraction (an exception here propagates
to the route-level catch), the bare generic-random shortcut, the no-keyword
reply, hard no-match guards, title keyword lookup, and confidence-gated
scored matching. -/
def chatPhase8 (c : ChatCtx) (s : Session) : ChatResult :=
  match extractKeywords c.orc.keywords with
  | none => .serverErr s
  | some keywords =>
    let preferVideo := c.fl.isVideo
    let bridge : Option String :=
      if c.fl.isConversational then some "Okay, let me find something else." else none
    let ml := msgLower c
    if ml = "another" ∨ ml = "random" ∨ ml = "surprise me" ∨ ml = "something different" ∨
       ml = "something else" ∨ ml = "anything" then
      let avSongs := availableSongs c.cat s.playedSongs
      if avSongs.length = 0 then
        .ok (textResp "I\x27ve shared my entire collection with you! That\x27s all I have for now.") s
      else
        match pickL avSongs c.rnd.songIdx with
        | some g => buildSongResponse c.cat c.rnd.shuffle g s none bridge
        | none => .serverErr s
    else if keywords.length = 0 then
      match fallbackSong c.cat s with
      | none => .serverErr s
      | some fb =>
        let genreOptions := getDynamicOptions c.cat c.rnd.shuffle fb s.playedSongs
        let trimmed : String := ⟨(strTrim c.message).data.take 40⟩
        if genreOptions.length ≥ 2 then
          .ok ⟨none, none,
               some ⟨"genre_suggest",
                     "I don\x27t think I have anything related to \"" ++ trimmed ++ "\". Try one of these instead.",
                     genreOptions, false⟩, none⟩ s
        else
          .ok (textResp ("I don\x27t think I have anything related to \"" ++ trimmed ++ "\". What are you in the mood for?")) s
    else
      let butOv : Option ButOverrides :=
        c.fl.butClause.map fun p => ⟨⟨lowerData (strTrim p.1)⟩, ⟨lowerData (strTrim p.2)⟩⟩
      match c.fl.hardNoMatch with
      | some reply =>
        match fallbackSong c.cat s with
        | none => .serverErr s
        | some fb =>
          let genreOptions := getDynamicOptions c.cat c.rnd.shuffle fb s.playedSongs
          if genreOptions.length ≥ 2 then
            .ok ⟨none, none,
                 some ⟨"genre_suggest", reply ++ " Try one of these instead.", genreOptions, false⟩,
                 none⟩ s
          else .ok (textResp reply) s
      | none =>
        let titleKeywords := keywords.filter fun k =>
          decide (k.length ≥ 4) && ¬TITLE_MATCH_STOPWORDS.contains (normalize k) &&
          ¬GENRE_WORDS.contains (normalize k) && ¬(normalize k).data.contains ':'
        let specificSong :=
          if titleKeywords.length > 0 then
            c.cat.find? fun g =>
              decide (g.title ∉ s.playedSongs) &&
              titleKeywords.any fun k =>
                (normalize g.title == normalize k) || wbTest (normalize k) (normalize g.title)
          else none
        match specificSong with
        | some g => buildSongResponse c.cat c.rnd.shuffle g s none none
        | none =>
          let allScored := scoreSongs c.cat keywords preferVideo butOv
          let bestScore := maxOf0 (allScored.map (·.2))
          if bestScore < (2/5 : Rat) then
            let noMatchText :=
              match c.fl.noMatchQuick with
              | some r => r
              | none => pickD NO_MATCH_LINES c.rnd.textIdx
            match fallbackSong c.cat s with
            | none => .serverErr s
            | some fb =>
              let genreOptions := getDynamicOptions c.cat c.rnd.shuffle fb s.playedSongs
              if genreOptions.length ≥ 2 then
                .ok ⟨none, none,
                     some ⟨"genre_suggest", noMatchText ++ " Try one of these directions instead.",
                           genreOptions, false⟩, none⟩ s
              else .ok (textResp noMatchText) s
          else
            let serve : ChatResult :=
              let avSongs := availableSongs c.cat s.playedSongs
              let avScored := scoreSongs avSongs keywords preferVideo butOv
              let avMatches := avScored.filter fun p => decide (p.2 ≥ (2/5 : Rat))
              if avMatches.length = 0 then
                .ok (textResp "Think I\x27ve played everything along those lines — is there another direction you want to go?") s
              else
                let top := maxOfD (avMatches.map (·.2))
                let topPicks := avMatches.filter fun p => decide (p.2 ≥ top * (17/20 : Rat))
                match pickL topPicks c.rnd.songIdx with
                | some p => buildSongResponse c.cat c.rnd.shuffle p.1 s none bridge
                | none => .serverErr s
            if bestScore < (3/5 : Rat) then
              match fallbackSong c.cat s with
              | none => .serverErr s
              | some fb =>
                let genreOptions := getDynamicOptions c.cat c.rnd.shuffle fb s.playedSongs
                if genreOptions.length ≥ 2 then
                  .ok ⟨none, none,
                       some ⟨"genre_suggest",
                             "I\x27m not sure I have anything like that in my collection. What would you like to explore?",
                             genreOptions, false⟩, none⟩ s
                else serve
            else serve

/-- The `/api/chat` handler: the priority-ordered early-return blocks of the
route, threaded in source order. -/
def handleChat (cat : List Song) (fl : MsgFlags) (orc : Oracle) (rnd : Rnd)
    (message : String) (s : Session) : ChatResult :=
  let c : ChatCtx := ⟨cat, fl, orc, rnd, message⟩
  match chatPhase1 c s with
  | .done r => r
  | .cont s1 =>
    match chatPhase2 c s1 with
    | .done r => r
    | .cont s2 =>
      match chatPhase3 c s2 with
      | .done r => r
      | .cont s3 =>
        match chatPhase4 c s3 with
        | .done r => r
        | .cont s4 =>
          match chatPhase5 c s4 with
          | .done r => r
          | .cont s5 =>
            match chatPhase6 c s5 with
            | .done r => r
            | .cont s6 =>
              match chatPhase7 c s6 with
              | .done r => r
              | .cont s7 => chatPhase8 c s7

/-- The fixed whole-collection (exhaustion) response of the chat route. -/
def WHOLE_COLLECTION_RESP : ChatResp :=
  textResp "That\x27s the whole collection — nothing left I haven\x27t played you."

/-- All inputs of one chat message. -/
structure ChatInput where
  fl : MsgFlags
  orc : Oracle
  rnd : Rnd
  message : String

/-- Process a list of chat messages in sequence, threading session state. -/
def chatOutputs (cat : List Song) : Session → List ChatInput → List ChatResult
  | _, [] => []
  | s, i :: rest =>
    let r := handleChat cat i.fl i.orc i.rnd i.message s
    r :: chatOutputs cat (sessionOf r) rest

/-- Multiply every query-term weight by a constant. -/
def scaleQuery (c : Rat) (q : Query) : Query :=
  ⟨q.targets.map fun p => (p.1, c * p.2), q.raws⟩

/-- The score assigned by `scoreSongs(_, kws, false, null)` to a song (the
score is a function of the song alone once the keywords are fixed). -/
def likeScoreOf (kws : List String) (g : Song) : Rat :=
  scoreSong ⟨applyBut none (resolveKeywords kws).targets, (resolveKeywords kws).raws⟩ false g

/-- A result serves no track whose title is already in `played`. -/
def servesFresh (played : List String) (r : ChatResult) : Prop :=
  ∀ resp s' v, r = .ok resp s' → resp.song = some v → v.title ∉ played

/-- The resulting session extends the play history by some suffix, with the
song counter advanced by exactly its length. -/
def sessionExtended (s : Session) (r : ChatResult) : Prop :=
  ∃ t, (sessionOf r).playedSongs = s.playedSongs ++ t ∧
       (sessionOf r).songCount = s.songCount + t.length

/-- Deterministic random draws (index 0, identity shuffle) for witnesses. -/
def rnd0 : Rnd := ⟨0, 0, id⟩

/-- An oracle whose calls all succeed with empty keyword lists. -/
def orc0 : Oracle := ⟨some (some []), some (some ["xx"]), some "ok"⟩

/-- A minimal song for concrete scenarios. -/
def mkSong (t a : String) (tr : List (String × Rat)) : Song :=
  ⟨t, a, none, tr, "", none, none, none, "", ""⟩

/-- A catalog containing an artist literally named `House`. -/
def houseSong : Song := mkSong "Untitled Structure" "House" []

/-- The one-artist catalog for the genre-word resolver scenario. -/
def houseCat : List Song := [houseSong]

/-- A song whose title contains the raw keyword `zeppelin`. -/
def c4songA : Song := mkSong "Zeppelin Dreams" "Nobody" []

/-- A song carrying the requested trait at full weight. -/
def c4songB : Song := mkSong "Quiet Fields" "Somebody" [("mood:dark", 1)]

/-- A query with one full-weight trait target and one raw keyword. -/
def c4query : Query := ⟨[("mood:dark", 1)], ["zeppelin"]⟩

/-- A song whose title contains the whole word `veil`. -/
def c5Song : Song := mkSong "Behind the Veil" "Someone" []

/-- A two-song catalog whose artists cannot match a nonsense message. -/
def c7Cat : List Song :=
  [mkSong "First Song" "Alpha Omega" [], mkSong "Second Song" "Beta Gamma" []]

/-- A one-song catalog for the generic-random scenario. -/
def soloSong : Song := mkSong "Solo" "Lone Artist" []

/-- The catalog containing only `soloSong`. -/
def cat1 : List Song := [soloSong]

/-- The session state after `soloSong` is served to a fresh session. -/
def c1sessAfter : Session :=
  ⟨["Solo"], some [], some "Lone Artist", some soloSong, 1, false, 0, none, none⟩

/-- A dark-trait song for the negated similarity scenario. -/
def likeDark : Song := mkSong "D" "Dark Band" [("mood:dark", 1)]

/-- A traitless song for the negated similarity scenario. -/
def likeLight : Song := mkSong "L" "Light Band" []

/-- The catalog for the negated similarity scenario. -/
def likeCat : List Song := [likeDark, likeLight]

/-- The session state after `likeLight` is served to a fresh session. -/
def likeSessAfter : Session :=
  ⟨["L"], some [], some "Light Band", some likeLight, 1, false, 0, none, none⟩

/-- The one-song catalog for the exhaustion scenario. -/
def cat2 : List Song := [mkSong "One" "Only Artist" []]

/-- A session whose play history already covers `cat2`. -/
def sFull : Session := ⟨["One"], none, none, none, 1, false, 0, none, none⟩

/-- A plain valid chat input for the exhaustion scenario. -/
def inpHello : ChatInput := ⟨plainFlags, orc0, rnd0, "hello"⟩

/-- Nine trait-less played titles for the interrupt frame-effect scenario. -/
def nineTitles : List String :=
  ["t1", "t2", "t3", "t4", "t5", "t6", "t7", "t8", "t9"]

/-- A trait-less song named by its title. -/
def plainSong (t : String) : Song := mkSong t ("Artist " ++ t) []

/-- The nine-song catalog, fully played in `c9Session`. -/
def nineCat : List Song := nineTitles.map plainSong

/-- A session at song 9 with no interrupt fired yet and all of `nineCat`
played. -/
def c9Session : Session := ⟨nineTitles, none, none, none, 9, false, 0, none, none⟩

/-! ## Helper lemmas -/

theorem pickL_mem {α : Type} {l : List α} {n : Nat} {x : α} (h : pickL l n = some x) :
    x ∈ l :=
  List.get?_mem h

theorem pickTopScoring_mem {pool : List (Song × Rat)} {n : Nat} {p : Song × Rat}
    (h : pickTopScoring pool n = some p) : p ∈ pool := by
  unfold pickTopScoring at h
  split at h
  · exact absurd h (by simp)
  · exact List.mem_of_mem_filter (pickL_mem h)

theorem mem_availableSongs {cat : List Song} {played : List String} {g : Song}
    (h : g ∈ availableSongs cat played) : g.title ∉ played := by
  have := (List.mem_filter.mp h).2
  exact of_decide_eq_true this

theorem scoreSongs_mem {l : List Song} {kws : List String} {pv : Bool}
    {bo : Option ButOverrides} {p : Song × Rat} (h : p ∈ scoreSongs l kws pv bo) :
    p.1 ∈ l := by
  simp only [scoreSongs] at h
  obtain ⟨g, hg, rfl⟩ := List.mem_map.mp h
  exact hg

theorem scoreSongs_snd {l : List Song} {kws : List String} {p : Song × Rat}
    (h : p ∈ scoreSongs l kws false none) : p.2 = likeScoreOf kws p.1 := by
  simp only [scoreSongs] at h
  obtain ⟨g, _, rfl⟩ := List.mem_map.mp h
  rfl

theorem decideInterrupt_session (cat : List Song) (sh : List TraitOption → List TraitOption)
    (s : Session) (g : Song) :
    (decideInterrupt cat sh s g).2.playedSongs = s.playedSongs ∧
    (decideInterrupt cat sh s g).2.songCount = s.songCount := by
  simp only [decideInterrupt]
  split
  · exact ⟨rfl, rfl⟩
  · split
    · exact ⟨rfl, rfl⟩
    · split
      · split
        · exact ⟨rfl, rfl⟩
        · exact ⟨rfl, rfl⟩
      · split
        · split
          · exact ⟨rfl, rfl⟩
          · exact ⟨rfl, rfl⟩
        · exact ⟨rfl, rfl⟩

theorem buildSongResponse_spec (cat : List Song) (sh : List TraitOption → List TraitOption)
    (g : Song) (s : Session) (i : Option Interrupt) (b : Option String) :
    ∃ i2 s2, buildSongResponse cat sh g s i b = .ok ⟨some g.commentary, some (songView g), i2, b⟩ s2 ∧
      s2.playedSongs = s.playedSongs ++ [g.title] ∧ s2.songCount = s.songCount + 1 := by
  simp only [buildSongResponse, findBridge]
  cases i with
  | some i => exact ⟨some i, _, rfl, rfl, rfl⟩
  | none =>
    refine ⟨_, _, rfl, ?_, ?_⟩
    · exact (decideInterrupt_session cat sh _ g).1
    · exact (decideInterrupt_session cat sh _ g).2

theorem servesFresh_text (played : List String) (t : String) (s : Session) :
    servesFresh played (.ok (textResp t) s) := by
  intro resp s' v h hv
  cases h
  simp [textResp] at hv

theorem servesFresh_noSong (played : List String) (resp : ChatResp) (hs : resp.song = none)
    (s : Session) : servesFresh played (.ok resp s) := by
  intro resp' s' v h hv
  cases h
  rw [hs] at hv
  exact absurd hv (by simp)

theorem servesFresh_err (played : List String) (s : Session) :
    servesFresh played (.serverErr s) := by
  intro resp s' v h
  exact absurd h (by simp)

theorem servesFresh_build (cat : List Song) (sh : List TraitOption → List TraitOption)
    (g : Song) (s : Session) (i : Option Interrupt) (b : Option String)
    (played : List String) (hg : g.title ∉ played) :
    servesFresh played (buildSongResponse cat sh g s i b) := by
  obtain ⟨i2, s2, heq, _, _⟩ := buildSongResponse_spec cat sh g s i b
  rw [heq]
  intro resp s' v h hv
  cases h
  simp only at hv
  cases hv
  exact hg

theorem sessionExtended_same (s : Session) (r : ChatResult) (h : sessionOf r = s) :
    sessionExtended s r :=
  ⟨[], by simp [h], by simp [h]⟩

theorem sessionExtended_of_eq (s : Session) (r : ChatResult)
    (hp : (sessionOf r).playedSongs = s.playedSongs)
    (hc : (sessionOf r).songCount = s.songCount) : sessionExtended s r :=
  ⟨[], by simp [hp], by simp [hc]⟩

theorem sessionExtended_build (cat : List Song) (sh : List TraitOption → List TraitOption)
    (g : Song) (s : Session) (i : Option Interrupt) (b : Option String) :
    sessionExtended s (buildSongResponse cat sh g s i b) := by
  obtain ⟨i2, s2, heq, hp, hc⟩ := buildSongResponse_spec cat sh g s i b
  rw [heq]
  exact ⟨[g.title], hp, by simpa using hc⟩

theorem step_done_inj {x r : ChatResult} (h : Step.done x = Step.done r) : x = r := by
  injection h

theorem step_cont_inj {x r : Session} (h : Step.cont x = Step.cont r) : x = r := by
  injection h

theorem fresh_from_scored {cat : List Song} {played : List String} {kws : List String}
    {pv : Bool} {bo : Option ButOverrides} {p : Song × Rat}
    (h : p ∈ scoreSongs (availableSongs cat played) kws pv bo) : p.1.title ∉ played :=
  mem_availableSongs (scoreSongs_mem h)

theorem chatPhase1_spec (c : ChatCtx) (s : Session) :
    (∀ r, chatPhase1 c s = .done r → servesFresh s.playedSongs r ∧ sessionExtended s r) ∧
    (∀ s1, chatPhase1 c s = .cont s1 → s1.playedSongs = s.playedSongs ∧ s1.songCount = s.songCount) := by
  constructor
  · intro r h
    simp only [chatPhase1] at h
    repeat' split at h
    all_goals try exact Step.noConfusion h
    all_goals
      cases step_done_inj h
      exact ⟨servesFresh_text _ _ _, sessionExtended_of_eq _ _ rfl rfl⟩
  · intro s1 h
    simp only [chatPhase1] at h
    repeat' split at h
    all_goals try exact Step.noConfusion h
    all_goals
      cases step_cont_inj h
      exact ⟨rfl, rfl⟩

theorem chatPhase2_spec (c : ChatCtx) (s : Session) :
    (∀ r, chatPhase2 c s = .done r → servesFresh s.playedSongs r ∧ sessionExtended s r) ∧
    (∀ s1, chatPhase2 c s = .cont s1 → s1.playedSongs = s.playedSongs ∧ s1.songCount = s.songCount) := by
  constructor
  · intro r h
    simp only [chatPhase2] at h
    repeat' split at h
    all_goals try exact Step.noConfusion h
    rename_i p hp
    cases step_done_inj h
    have hmem := pickTopScoring_mem hp
    have hfresh : p.1.title ∉ s.playedSongs := by
      split at hmem
      · split at hmem
        · exact fresh_from_scored (List.mem_of_mem_filter (List.mem_of_mem_filter hmem))
        · exact fresh_from_scored (List.mem_of_mem_filter hmem)
      · exact fresh_from_scored (List.mem_of_mem_filter hmem)
    exact ⟨servesFresh_build _ _ _ _ _ _ _ hfresh, sessionExtended_build _ _ _ _ _ _⟩
  · intro s1 h
    simp only [chatPhase2] at h
    repeat' split at h
    all_goals try exact Step.noConfusion h
    all_goals
      cases step_cont_inj h
      exact ⟨rfl, rfl⟩

theorem chatPhase3_spec (c : ChatCtx) (s : Session) :
    (∀ r, chatPhase3 c s = .done r → servesFresh s.playedSongs r ∧ sessionExtended s r) ∧
    (∀ s1, chatPhase3 c s = .cont s1 → s1.playedSongs = s.playedSongs ∧ s1.songCount = s.songCount) := by
  constructor
  · intro r h
    simp only [chatPhase3] at h
    repeat' split at h
    all_goals try exact Step.noConfusion h
    all_goals
      first
        | (cases step_done_inj h; exact ⟨servesFresh_text _ _ _, sessionExtended_of_eq _ _ rfl rfl⟩)
        | (rename_i hfresh hbridge
           cases step_done_inj h
           refine ⟨servesFresh_build _ _ _ _ _ _ _ ?_, sessionExtended_build _ _ _ _ _ _⟩
           simpa using hfresh)
  · intro s1 h
    simp only [chatPhase3] at h
    repeat' split at h
    all_goals try exact Step.noConfusion h
    all_goals
      cases step_cont_inj h
      exact ⟨rfl, rfl⟩

theorem chatPhase4_spec (c : ChatCtx) (s : Session) :
    (∀ r, chatPhase4 c s = .done r → servesFresh s.playedSongs r ∧ sessionExtended s r) ∧
    (∀ s1, chatPhase4 c s = .cont s1 → s1.playedSongs = s.playedSongs ∧ s1.songCount = s.songCount) := by
  constructor
  · intro r h
    simp only [chatPhase4] at h
    repeat' split at h
    all_goals try exact Step.noConfusion h
    all_goals
      first
        | (cases step_done_inj h; exact ⟨servesFresh_err _ _, sessionExtended_of_eq _ _ rfl rfl⟩)
        | (cases step_done_inj h; exact ⟨servesFresh_text _ _ _, sessionExtended_of_eq _ _ rfl rfl⟩)
  · intro s1 h
    simp only [chatPhase4] at h
    repeat' split at h
    all_goals try exact Step.noConfusion h
    all_goals
      cases step_cont_inj h
      exact ⟨rfl, rfl⟩

theorem find_fresh {cat : List Song} {played : List String} {q : Song → Bool} {g : Song}
    (h : cat.find? (fun g => decide (g.title ∉ played) && q g) = some g) :
    g.title ∉ played := by
  have hp := List.find?_some h
  simp only [Bool.and_eq_true, decide_eq_true_eq] at hp
  exact hp.1

theorem find_ite_fresh {cond : Prop} [Decidable cond] {cat : List Song} {played : List String}
    {q : Song → Bool} {g : Song}
    (h : (if cond then cat.find? (fun g => decide (g.title ∉ played) && q g) else none) = some g) :
    g.title ∉ played := by
  split at h
  · exact find_fresh h
  · exact Option.noConfusion h

theorem chatPhase5_spec (c : ChatCtx) (s : Session) :
    (∀ r, chatPhase5 c s = .done r → servesFresh s.playedSongs r ∧ sessionExtended s r) ∧
    (∀ s1, chatPhase5 c s = .cont s1 → s1.playedSongs = s.playedSongs ∧ s1.songCount = s.songCount) := by
  constructor
  · intro r h
    simp only [chatPhase5] at h
    repeat' split at h
    all_goals try exact Step.noConfusion h
    all_goals try (cases step_done_inj h; exact ⟨servesFresh_err _ _, sessionExtended_of_eq _ _ rfl rfl⟩)
    all_goals
      first
        | (rename_i p hp
           cases step_done_inj h
           have hmem := pickTopScoring_mem hp
           have hfresh : p.1.title ∉ s.playedSongs := by
             repeat' split at hmem
             all_goals
               first
                 | exact fresh_from_scored (List.mem_of_mem_filter (List.mem_of_mem_filter hmem))
                 | exact fresh_from_scored (List.mem_of_mem_filter hmem)
           exact ⟨servesFresh_build _ _ _ _ _ _ _ hfresh, sessionExtended_build _ _ _ _ _ _⟩)
        | (rename_i p hp
           cases step_done_inj h
           have hfresh : p.1.title ∉ s.playedSongs :=
             fresh_from_scored (List.mem_of_mem_filter (pickL_mem hp))
           exact ⟨servesFresh_build _ _ _ _ _ _ _ hfresh, sessionExtended_build _ _ _ _ _ _⟩)
        | (cases step_done_inj h
           exact ⟨servesFresh_build _ _ _ _ _ _ _ (find_fresh (by assumption)),
                  sessionExtended_build _ _ _ _ _ _⟩)
  · intro s1 h
    simp only [chatPhase5] at h
    repeat' split at h
    all_goals try exact Step.noConfusion h
    all_goals
      cases step_cont_inj h
      exact ⟨rfl, rfl⟩

theorem likeArtistBranch_spec (cat : List Song) (rnd : Rnd) (name : String) (negated : Bool)
    (call : Option (Option (List String))) (s : Session) :
    (∀ r, likeArtistBranch cat rnd name negated call s = .done r →
       servesFresh s.playedSongs r ∧ sessionExtended s r) ∧
    (∀ s1, likeArtistBranch cat rnd name negated call s = .cont s1 →
       s1.playedSongs = s.playedSongs ∧ s1.songCount = s.songCount) := by
  constructor
  · intro r h
    simp only [likeArtistBranch] at h
    repeat' split at h
    all_goals try exact Step.noConfusion h
    all_goals try (cases step_done_inj h; exact ⟨servesFresh_err _ _, sessionExtended_of_eq _ _ rfl rfl⟩)
    all_goals
      rename_i p hp
      cases step_done_inj h
      refine ⟨servesFresh_build _ _ _ _ _ _ _ ?_, sessionExtended_build _ _ _ _ _ _⟩
    · -- negated pool member
      have h1 := List.mem_of_mem_take (pickL_mem hp)
      rw [negatedSorted, List.mem_insertionSort] at h1
      obtain ⟨q, hq, hqe⟩ := List.mem_map.mp (List.mem_of_mem_filter h1)
      have : p.1 = q.1 := by rw [← hqe]
      rw [this]
      exact mem_availableSongs (List.mem_of_mem_filter (scoreSongs_mem (l := (availableSongs cat s.playedSongs).filter _) hq))
    · -- plain 0.85-band member
      have h1 := List.mem_of_mem_filter (pickL_mem hp)
      have h2 : p ∈ likeScored cat _ (normalize name) s.playedSongs := List.mem_of_mem_filter h1
      rw [likeScored] at h2
      exact mem_availableSongs (List.mem_of_mem_filter (scoreSongs_mem (l := (availableSongs cat s.playedSongs).filter _) h2))
  · intro s1 h
    simp only [likeArtistBranch] at h
    repeat' split at h
    all_goals try exact Step.noConfusion h
    all_goals
      cases step_cont_inj h
      exact ⟨rfl, rfl⟩

theorem chatPhase6_spec (c : ChatCtx) (s : Session) :
    (∀ r, chatPhase6 c s = .done r → servesFresh s.playedSongs r ∧ sessionExtended s r) ∧
    (∀ s1, chatPhase6 c s = .cont s1 → s1.playedSongs = s.playedSongs ∧ s1.songCount = s.songCount) := by
  constructor
  · intro r h
    simp only [chatPhase6] at h
    split at h
    · exact (likeArtistBranch_spec _ _ _ _ _ _).1 r h
    · exact Step.noConfusion h
  · intro s1 h
    simp only [chatPhase6] at h
    split at h
    · exact (likeArtistBranch_spec _ _ _ _ _ _).2 s1 h
    · cases step_cont_inj h; exact ⟨rfl, rfl⟩

theorem chatPhase7_spec (c : ChatCtx) (s : Session) :
    (∀ r, chatPhase7 c s = .done r → servesFresh s.playedSongs r ∧ sessionExtended s r) ∧
    (∀ s1, chatPhase7 c s = .cont s1 → s1.playedSongs = s.playedSongs ∧ s1.songCount = s.songCount) := by
  constructor
  · intro r h
    simp only [chatPhase7] at h
    repeat' split at h
    all_goals try exact Step.noConfusion h
    all_goals try (cases step_done_inj h; exact ⟨servesFresh_err _ _, sessionExtended_of_eq _ _ rfl rfl⟩)
    rename_i g hg
    cases step_done_inj h
    have hfresh : g.title ∉ s.playedSongs :=
      of_decide_eq_true (List.mem_filter.mp (pickL_mem hg)).2
    exact ⟨servesFresh_build _ _ _ _ _ _ _ hfresh, sessionExtended_build _ _ _ _ _ _⟩
  · intro s1 h
    simp only [chatPhase7] at h
    repeat' split at h
    all_goals try exact Step.noConfusion h
    all_goals
      cases step_cont_inj h
      exact ⟨rfl, rfl⟩

theorem chatPhase8_spec (c : ChatCtx) (s : Session) :
    ∀ r, chatPhase8 c s = r → servesFresh s.playedSongs r ∧ sessionExtended s r := by
  intro r h
  simp only [chatPhase8] at h
  repeat' split at h
  all_goals subst h
  all_goals try exact ⟨servesFresh_err _ _, sessionExtended_of_eq _ _ rfl rfl⟩
  all_goals try exact ⟨servesFresh_text _ _ _, sessionExtended_of_eq _ _ rfl rfl⟩
  all_goals try exact ⟨servesFresh_noSong _ _ rfl _, sessionExtended_of_eq _ _ rfl rfl⟩
  all_goals
    refine ⟨servesFresh_build _ _ _ _ _ _ _ ?_, sessionExtended_build _ _ _ _ _ _⟩
  all_goals
    first
      | exact mem_availableSongs (pickL_mem (by assumption))
      | exact fresh_from_scored
          (List.mem_of_mem_filter (List.mem_of_mem_filter (pickL_mem (by assumption))))
      | exact find_ite_fresh (by assumption)

theorem spec_transport {s s1 : Session} {r : ChatResult}
    (hp : s1.playedSongs = s.playedSongs) (hc : s1.songCount = s.songCount)
    (h : servesFresh s1.playedSongs r ∧ sessionExtended s1 r) :
    servesFresh s.playedSongs r ∧ sessionExtended s r := by
  obtain ⟨hf, t, hpt, hct⟩ := h
  exact ⟨hp ▸ hf, t, by rw [hpt, hp], by rw [hct, hc]⟩

theorem handleChat_spec (cat : List Song) (fl : MsgFlags) (orc : Oracle) (rnd : Rnd)
    (message : String) (s : Session) :
    servesFresh s.playedSongs (handleChat cat fl orc rnd message s) ∧
    sessionExtended s (handleChat cat fl orc rnd message s) := by
  simp only [handleChat]
  cases h1 : chatPhase1 ⟨cat, fl, orc, rnd, message⟩ s with
  | done r => exact (chatPhase1_spec _ _).1 r h1
  | cont s1 =>
  dsimp only
  obtain ⟨hp1, hc1⟩ := (chatPhase1_spec _ _).2 s1 h1
  refine spec_transport hp1 hc1 ?_
  cases h2 : chatPhase2 ⟨cat, fl, orc, rnd, message⟩ s1 with
  | done r => exact (chatPhase2_spec _ _).1 r h2
  | cont s2 =>
  dsimp only
  obtain ⟨hp2, hc2⟩ := (chatPhase2_spec _ _).2 s2 h2
  refine spec_transport hp2 hc2 ?_
  cases h3 : chatPhase3 ⟨cat, fl, orc, rnd, message⟩ s2 with
  | done r => exact (chatPhase3_spec _ _).1 r h3
  | cont s3 =>
  dsimp only
  obtain ⟨hp3, hc3⟩ := (chatPhase3_spec _ _).2 s3 h3
  refine spec_transport hp3 hc3 ?_
  cases h4 : chatPhase4 ⟨cat, fl, orc, rnd, message⟩ s3 with
  | done r => exact (chatPhase4_spec _ _).1 r h4
  | cont s4 =>
  dsimp only
  obtain ⟨hp4, hc4⟩ := (chatPhase4_spec _ _).2 s4 h4
  refine spec_transport hp4 hc4 ?_
  cases h5 : chatPhase5 ⟨cat, fl, orc, rnd, message⟩ s4 with
  | done r => exact (chatPhase5_spec _ _).1 r h5
  | cont s5 =>
  dsimp only
  obtain ⟨hp5, hc5⟩ := (chatPhase5_spec _ _).2 s5 h5
  refine spec_transport hp5 hc5 ?_
  cases h6 : chatPhase6 ⟨cat, fl, orc, rnd, message⟩ s5 with
  | done r => exact (chatPhase6_spec _ _).1 r h6
  | cont s6 =>
  dsimp only
  obtain ⟨hp6, hc6⟩ := (chatPhase6_spec _ _).2 s6 h6
  refine spec_transport hp6 hc6 ?_
  cases h7 : chatPhase7 ⟨cat, fl, orc, rnd, message⟩ s6 with
  | done r => exact (chatPhase7_spec _ _).1 r h7
  | cont s7 =>
  dsimp only
  obtain ⟨hp7, hc7⟩ := (chatPhase7_spec _ _).2 s7 h7
  refine spec_transport hp7 hc7 ?_
  exact chatPhase8_spec _ s7 _ rfl

theorem handleFavorite_spec (cat : List Song) (persona : Option String) (input : String)
    (s : Session) : sessionExtended s (handleFavorite cat persona input s) := by
  simp only [handleFavorite]
  repeat' split
  all_goals try exact sessionExtended_of_eq _ _ rfl rfl
  exact ⟨_, rfl, by simp [sessionOf]⟩

/-- Exhaustion single step: once play history is at least as long as the
catalog, any non-empty, length-bounded message gets the whole-collection
response and leaves the session untouched. -/
theorem exhaustion_step (cat : List Song) (fl : MsgFlags) (orc : Oracle) (rnd : Rnd)
    (message : String) (s : Session)
    (hmsg : ¬strTrim message = "") (hlen : message.length ≤ 500)
    (hfull : cat.length ≤ s.playedSongs.length) :
    handleChat cat fl orc rnd message s = .ok WHOLE_COLLECTION_RESP s := by
  simp only [handleChat, chatPhase1]
  rw [if_neg hmsg, if_neg (by omega), if_pos (by omega)]
  rfl

/-! ## Claim theorems -/

/-- C1: for every session and every chat message handled, a track returned
in the response (if any) has a title that is not already present in that
session's `playedSongs` history at the time the message is handled — every
selection path draws only from unplayed tracks. -/
theorem c1_no_repeats (cat : List Song) (fl : MsgFlags) (orc : Oracle) (rnd : Rnd)
    (message : String) (s : Session) (resp : ChatResp) (s2 : Session) (v : SongView)
    (h : handleChat cat fl orc rnd message s = .ok resp s2)
    (hv : resp.song = some v) : v.title ∉ s.playedSongs :=
  (handleChat_spec cat fl orc rnd message s).1 resp s2 v h hv

/-- Witness for C1: a fresh session served `soloSong` via the bare generic
"random" path — its title was not in the (empty) play history. -/
theorem c1_no_repeats_witness : (songView soloSong).title ∉ freshSession.playedSongs :=
  c1_no_repeats cat1 plainFlags orc0 rnd0 "random" freshSession
    ⟨some "", some (songView soloSong), none, none⟩ c1sessAfter (songView soloSong)
    (by decide) rfl

/-- C2: for every session whose `playedSongs` history contains at least as
many titles as the catalog has tracks, every subsequent non-empty,
non-over-length chat message returns the fixed whole-collection response
with song null (and the session unchanged), so no track is ever returned
again for that session. -/
theorem c2_exhaustion_terminal (cat : List Song) (s : Session) (inputs : List ChatInput)
    (hfull : cat.length ≤ s.playedSongs.length)
    (hval : ∀ i ∈ inputs, ¬strTrim i.message = "" ∧ i.message.length ≤ 500) :
    ∀ r ∈ chatOutputs cat s inputs, r = .ok WHOLE_COLLECTION_RESP s := by
  revert hval
  induction inputs with
  | nil => intro _ r hr; simp [chatOutputs] at hr
  | cons i rest ih =>
    intro hval r hr
    have hi := hval i (List.mem_cons_self _ _)
    have hstep := exhaustion_step cat i.fl i.orc i.rnd i.message s hi.1 hi.2 hfull
    simp only [chatOutputs, hstep, sessionOf] at hr
    rcases List.mem_cons.mp hr with h | h
    · exact h
    · exact ih (fun j hj => hval j (List.mem_cons_of_mem _ hj)) r h

/-- Witness for C2: a session that has played the whole one-track catalog
answers a plain message with the whole-collection response. -/
theorem c2_exhaustion_terminal_witness :
    handleChat cat2 inpHello.fl inpHello.orc inpHello.rnd inpHello.message sFull =
      .ok WHOLE_COLLECTION_RESP sFull :=
  c2_exhaustion_terminal cat2 sFull [inpHello] (by decide)
    (by
      intro i hi
      rw [List.mem_singleton] at hi
      subst hi
      exact ⟨by decide, by decide⟩)
    _ (by simp [chatOutputs])

/-- C10: after any completed request on either endpoint, `songCount` equals
the length of `playedSongs` (provided it did before), and `playedSongs` only
ever grows by appended titles, each append incrementing the counter exactly
once. -/
theorem c10_session_counters :
    (∀ (cat : List Song) (fl : MsgFlags) (orc : Oracle) (rnd : Rnd) (message : String)
       (s : Session),
      (s.songCount = s.playedSongs.length →
        (sessionOf (handleChat cat fl orc rnd message s)).songCount =
          (sessionOf (handleChat cat fl orc rnd message s)).playedSongs.length) ∧
      ∃ t, (sessionOf (handleChat cat fl orc rnd message s)).playedSongs =
             s.playedSongs ++ t) ∧
    (∀ (cat : List Song) (persona : Option String) (input : String) (s : Session),
      (s.songCount = s.playedSongs.length →
        (sessionOf (handleFavorite cat persona input s)).songCount =
          (sessionOf (handleFavorite cat persona input s)).playedSongs.length) ∧
      ∃ t, (sessionOf (handleFavorite cat persona input s)).playedSongs =
             s.playedSongs ++ t) := by
  constructor
  · intro cat fl orc rnd message s
    obtain ⟨t, hp, hc⟩ := (handleChat_spec cat fl orc rnd message s).2
    exact ⟨fun hinv => by rw [hp, hc, hinv, List.length_append], ⟨t, hp⟩⟩
  · intro cat persona input s
    obtain ⟨t, hp, hc⟩ := handleFavorite_spec cat persona input s
    exact ⟨fun hinv => by rw [hp, hc, hinv, List.length_append], ⟨t, hp⟩⟩

/-- Witness for C10: the invariant after serving `soloSong` through both
endpoints from a fresh session. -/
theorem c10_session_counters_witness :
    (sessionOf (handleChat cat1 plainFlags orc0 rnd0 "random" freshSession)).songCount =
      (sessionOf (handleChat cat1 plainFlags orc0 rnd0 "random" freshSession)).playedSongs.length ∧
    ∃ t, (sessionOf (handleFavorite cat1 (some "nice") "Solo" freshSession)).playedSongs =
           freshSession.playedSongs ++ t :=
  ⟨(c10_session_counters.1 cat1 plainFlags orc0 rnd0 "random" freshSession).1 rfl,
   (c10_session_counters.2 cat1 (some "nice") "Solo" freshSession).2⟩

/-- C8: for every session state in which fewer than 3 tracks have been
served since the last interrupt (`songCount - lastInterruptSong < 3`), the
interrupt decision made after serving a track returns no interrupt — an
interrupt never fires within the global cooldown. -/
theorem c8_interrupt_cooldown (cat : List Song) (shuffle : List TraitOption → List TraitOption)
    (s : Session) (g : Song)
    (h : (s.songCount : Int) - (s.lastInterruptSong : Int) < 3) :
    (decideInterrupt cat shuffle s g).1 = none := by
  simp only [decideInterrupt]
  rw [if_pos h]

/-- Witness for C8: at song 2 with no interrupt fired, the decision is null. -/
theorem c8_interrupt_cooldown_witness :
    (decideInterrupt nineCat id ⟨[], none, none, none, 2, false, 0, none, none⟩
      (plainSong "t1")).1 = none :=
  c8_interrupt_cooldown nineCat id _ _ (by decide)

/-- C9 counterexample: at song 9 with no interrupt fired and a catalog whose
dynamic-options computation yields fewer than 2 labels, `decideInterrupt`
returns no interrupt but still mutates `lastInterruptSong` — so the skipped
attempt does NOT leave the interrupt-scheduling state unchanged, refuting
the claim as stated. -/
theorem c9_counterexample :
    (getDynamicOptions nineCat id (plainSong "t9") c9Session.playedSongs).length < 2 ∧
    (decideInterrupt nineCat id c9Session (plainSong "t9")).1 = none ∧
    (decideInterrupt nineCat id c9Session (plainSong "t9")).2.lastInterruptSong ≠
      c9Session.lastInterruptSong :=
  ⟨by decide, by decide, by decide⟩

/-- C9 (amended): when a dynamic-options interrupt attempt (vibe-check or
more-of) computes fewer than 2 viable labels, no interrupt is attached to
the response, but the attempt still consumes the schedule: the vibe-check
branch sets `lastInterruptSong` to the current song count, and the more-of
branch additionally sets the one-shot `askedMoreOf` flag. -/
theorem c9_skip_updates_schedule (cat : List Song)
    (shuffle : List TraitOption → List TraitOption) (s : Session) (g : Song)
    (hrel : findRelatedSong cat g s.playedSongs = none)
    (hopt : (getDynamicOptions cat shuffle g s.playedSongs).length < 2) :
    (s.songCount ≥ 9 ∧ (s.songCount - 9) % 4 = 0 ∧
       (s.songCount : Int) - (s.lastInterruptSong : Int) ≥ 4 →
     decideInterrupt cat shuffle s g =
       (none, { s with lastInterruptSong := s.songCount })) ∧
    (s.songCount ≥ 12 ∧ ¬(s.songCount - 9) % 4 = 0 ∧ s.askedMoreOf = false ∧
       (s.songCount : Int) - (s.lastInterruptSong : Int) ≥ 4 →
     decideInterrupt cat shuffle s g =
       (none, { s with askedMoreOf := true, lastInterruptSong := s.songCount })) := by
  constructor
  · rintro ⟨h9, hmod, hsince⟩
    simp only [decideInterrupt]
    rw [if_neg (by omega), if_pos ⟨by omega, hsince⟩, hrel]
    rw [if_pos ⟨h9, hmod, hsince⟩, if_pos hopt]
  · rintro ⟨h12, hmod, hasked, hsince⟩
    simp only [decideInterrupt]
    rw [if_neg (by omega), if_pos ⟨by omega, hsince⟩, hrel]
    rw [if_neg (by rintro ⟨_, hm, _⟩; exact hmod hm)]
    rw [if_pos ⟨h12, by simp [hasked], hsince⟩, if_pos hopt]

/-- Witness for C9's amended claim: the concrete nine-song scenario. -/
theorem c9_skip_updates_schedule_witness :
    decideInterrupt nineCat id c9Session (plainSong "t9") =
      (none, { c9Session with lastInterruptSong := c9Session.songCount }) :=
  (c9_skip_updates_schedule nineCat id c9Session (plainSong "t9")
    (by decide) (by decide)).1 ⟨by decide, by decide, by decide⟩

/-- C7 (code behavior at the failing input): when the keyword-extraction
service call rejects (network failure or timeout) while handling an
ordinary descriptive message, the chat route does NOT degrade to the
no-keyword reply — the exception propagates to the route-level catch and
the client receives the HTTP 500 error response (session state unchanged).
This contradicts the claim, which says such a failure is handled as an
empty keyword list with a normal response: the `await` in `extractKeywords`
sits outside its try/catch. -/
theorem c7_keyword_failure_behavior :
    handleChat c7Cat plainFlags ⟨some (some []), none, some "ok"⟩ rnd0
      "zorblatt melodies" freshSession = .serverErr freshSession := by
  decide

/-- C5: the raw-keyword fallback pass awards, per keyword, at most one
increment from at most one field — 0.8 for a word-boundary title match,
else 0.8 for an artist match, else 0.3 for a commentary match — testing
title, then artist, then commentary in that priority order, and it never
awards the commentary increment for a keyword in the commentary stopword
set. -/
theorem c5_raw_keyword_pass :
    (∀ (g : Song) (kw : String),
       rawKwScore g kw = 0 ∨ rawKwScore g kw = (8/10 : Rat) ∨ rawKwScore g kw = (3/10 : Rat)) ∧
    (∀ (g : Song) (kw : String), kw ∉ GENRE_WORDS → ¬kw.length < 4 →
       wbTest kw (normalize g.title) = true → rawKwScore g kw = (8/10 : Rat)) ∧
    (∀ (g : Song) (kw : String), kw ∉ GENRE_WORDS → ¬kw.length < 4 →
       wbTest kw (normalize g.title) = false → wbTest kw (normalize g.artist) = true →
       rawKwScore g kw = (8/10 : Rat)) ∧
    (∀ (g : Song) (kw : String), kw ∉ GENRE_WORDS → ¬kw.length < 4 →
       wbTest kw (normalize g.title) = false → wbTest kw (normalize g.artist) = false →
       kw ∉ COMMENTARY_STOPWORDS → wbTest kw (normalize g.commentary) = true →
       rawKwScore g kw = (3/10 : Rat)) ∧
    (∀ (g : Song) (kw : String), kw ∈ COMMENTARY_STOPWORDS →
       rawKwScore g kw ≠ (3/10 : Rat)) := by
  refine ⟨?_, ?_, ?_, ?_, ?_⟩ <;> intro g kw
  · unfold rawKwScore
    split_ifs
    all_goals first
      | exact Or.inl rfl
      | exact Or.inr (Or.inl rfl)
      | exact Or.inr (Or.inr rfl)
  · intro hg hlen ht
    unfold rawKwScore
    rw [if_neg (by simpa using hg), if_neg hlen, if_pos ht]
  · intro hg hlen ht ha
    unfold rawKwScore
    rw [if_neg (by simpa using hg), if_neg hlen, if_neg (by simp [ht]), if_pos ha]
  · intro hg hlen ht ha hstop hc
    unfold rawKwScore
    rw [if_neg (by simpa using hg), if_neg hlen, if_neg (by simp [ht]),
        if_neg (by simp [ha]), if_pos ⟨by simpa using hstop, hc⟩]
  · intro hstop
    unfold rawKwScore
    split_ifs with h1 h2 h3 h4 h5
    · norm_num
    · norm_num
    · norm_num
    · norm_num
    · exact absurd (by simpa using hstop) (by simpa using h5.1)
    · norm_num

/-- Witness for C5: the keyword `veil` scores 0.8 against a title that
contains it as a whole word. -/
theorem c5_raw_keyword_pass_witness : rawKwScore c5Song "veil" = (8/10 : Rat) :=
  c5_raw_keyword_pass.2.1 c5Song "veil" (by decide) (by decide) (by decide)

/-- C3 counterexample: the bare genre word `house` (a member of the
genre-word set) resolves through `findSongsByArtist` to a track whose
artist name contains that word — an artist literally named `House` — so the
resolver does not satisfy "never resolves a bare genre word to an artist
name containing it" as stated. -/
theorem c3_counterexample :
    "house" ∈ GENRE_WORDS ∧
    findSongsByArtist houseCat "house" = some [houseSong] ∧
    strIncludes (normalize houseSong.artist) (normalize "house") = true :=
  ⟨by decide, by decide, by decide⟩

theorem artistPass1_single {m artist : String} {imw : Bool} (himw : imw = false)
    (h : artistPass1 m (normalize m) imw artist = true) :
    strIncludes (normalize m) (normalize artist) = true := by
  simp only [artistPass1, himw, Bool.false_and, Bool.or_false, Bool.and_eq_true] at h
  exact h.2

theorem artistPass2_single {w artist : String} {imw : Bool}
    (hw : w ∈ GENRE_WORDS) (himw : imw = false)
    (h : artistPass2 [w] imw artist = true) : False := by
  simp only [artistPass2, himw, Bool.false_eq_true, if_false, Bool.and_eq_true,
    List.any_eq_true] at h
  obtain ⟨x, hx, hcont⟩ := h.2
  have hxw : x = w := by simpa using hcont
  subst hxw
  have hpred := (List.mem_filter.mp hx).2
  simp only [Bool.and_eq_true, decide_eq_true_eq] at hpred
  exact hpred.1.2 (by simpa using hw)

/-- C3 (amended): genre words contribute nothing through the raw-keyword
text fallback (their per-keyword raw score is 0 for every track), and on a
bare single-word genre query the artist resolver can only resolve artists
whose normalized name is a substring of the query word itself — so it never
resolves such a query to an artist name strictly containing the word. -/
theorem c3_genre_isolation :
    (∀ (g : Song) (kw : String), kw ∈ GENRE_WORDS → rawKwScore g kw = 0) ∧
    (∀ (cat : List Song) (m : String) (l : List Song),
       jsSplitWs (normalize m) = [normalize m] →
       normalize m ∈ GENRE_WORDS →
       findSongsByArtist cat m = some l →
       ∀ g ∈ l, strIncludes (normalize m) (normalize g.artist) = true) := by
  constructor
  · intro g kw hkw
    unfold rawKwScore
    rw [if_pos (by simpa using hkw)]
  · intro cat m l hsplit hgenre hfind g hg
    simp only [findSongsByArtist] at hfind
    have hwords : (jsSplitWs (normalize m)).dedup = [normalize m] := by
      rw [hsplit]
      rfl
    rw [hwords] at hfind
    split at hfind
    · rename_i artist hart
      injection hfind with hfind
      subst hfind
      have h1 := artistPass1_single (by rfl) (List.find?_some hart)
      have h2 := (List.mem_filter.mp hg).2
      rw [show normalize g.artist = normalize artist from by simpa using h2]
      exact h1
    · split at hfind
      · rename_i artist hart
        exact absurd (List.find?_some hart)
          (by intro hc; exact artistPass2_single hgenre (by rfl) hc)
      · exact Option.noConfusion hfind

theorem traitScore_scale_aux (c : Rat) (traits : List (String × Rat)) :
    ∀ (targets : List (String × Rat)) (acc : Rat),
      List.foldl
        (fun acc p =>
          match traitLookup traits p.1 with
          | some tw => acc + tw * p.2
          | none => acc)
        (c * acc) (targets.map fun p => (p.1, c * p.2))
      = c * List.foldl
          (fun acc p =>
            match traitLookup traits p.1 with
            | some tw => acc + tw * p.2
            | none => acc)
          acc targets
  | [], _ => rfl
  | (k, w) :: rest, acc => by
    simp only [List.map_cons, List.foldl_cons]
    cases htl : traitLookup traits k with
    | none =>
      simp only [htl]
      exact traitScore_scale_aux c traits rest acc
    | some tw =>
      simp only [htl]
      rw [show c * acc + tw * (c * w) = c * (acc + tw * w) by ring]
      exact traitScore_scale_aux c traits rest (acc + tw * w)

theorem traitScore_scale (c : Rat) (targets traits : List (String × Rat)) :
    traitScore (targets.map fun p => (p.1, c * p.2)) traits = c * traitScore targets traits := by
  have h := traitScore_scale_aux c traits targets 0
  rw [mul_zero] at h
  exact h

theorem scoreSong_scale (c : Rat) (q : Query) (hraw : q.raws = []) (g : Song)
    (hy : g.year = none) :
    scoreSong (scaleQuery c q) false g = c * scoreSong q false g := by
  obtain ⟨targets, raws⟩ := q
  simp only at hraw
  subst hraw
  simp only [scoreSong, scaleQuery, rawScore, eraScore, videoScore, hy,
    List.length_nil, gt_iff_lt, lt_self_iff_false, if_false, Bool.false_eq_true, false_and]
  rw [traitScore_scale]
  ring

/-- C4 counterexample: the keyword list `["dark", "zeppelin"]` resolves to
one full-weight trait target plus one raw keyword, and halving the
query-term weights reverses the relative ranking of two tracks — the
raw-keyword (and era/video) bonuses are not scaled along with the trait
weights, so scaling does not preserve ranking as the claim states. -/
theorem c4_counterexample :
    resolveKeywords ["dark", "zeppelin"] = c4query ∧
    ¬(∀ (q : Query) (c : Rat), 0 < c → ∀ g1 g2 : Song,
        (scoreSong q false g2 ≤ scoreSong q false g1 ↔
         scoreSong (scaleQuery c q) false g2 ≤ scoreSong (scaleQuery c q) false g1)) := by
  refine ⟨by decide, ?_⟩
  intro hclaim
  have h := (hclaim c4query (mkRat 1 2) (by decide) c4songB c4songA).mp (by decide)
  revert h
  decide

/-- C4 (amended): scaling every query-term weight by a positive constant
scales the trait-matching component of every score by exactly that
constant, and therefore preserves relative ranking whenever the scores
consist solely of the trait component — no raw keywords, no video
preference, and no year-derived era credit. -/
theorem c4_scale_invariance (q : Query) (hraw : q.raws = []) (c : Rat) (hc : 0 < c)
    (g1 g2 : Song) (h1 : g1.year = none) (h2 : g2.year = none) :
    scoreSong q false g2 ≤ scoreSong q false g1 ↔
    scoreSong (scaleQuery c q) false g2 ≤ scoreSong (scaleQuery c q) false g1 := by
  rw [scoreSong_scale c q hraw g1 h1, scoreSong_scale c q hraw g2 h2]
  exact (mul_le_mul_left hc).symm

/-- Witness for C4's amended claim at a pure-trait query and constant 2. -/
theorem c4_scale_invariance_witness :
    scoreSong ⟨[("mood:dark", 1)], []⟩ false c4songA ≤
      scoreSong ⟨[("mood:dark", 1)], []⟩ false c4songB ↔
    scoreSong (scaleQuery 2 ⟨[("mood:dark", 1)], []⟩) false c4songA ≤
      scoreSong (scaleQuery 2 ⟨[("mood:dark", 1)], []⟩) false c4songB :=
  c4_scale_invariance ⟨[("mood:dark", 1)], []⟩ rfl 2 (by norm_num) c4songB c4songA rfl rfl

theorem negatedSorted_mem {cat : List Song} {kws : List String} {likeNorm : String}
    {played : List String} {p : Song × Rat}
    (hp : p ∈ negatedSorted cat kws likeNorm played) :
    p.1 ∈ availableSongs cat played ∧ normalize p.1.artist ≠ likeNorm ∧
    p.2 = maxOf0 ((likeScored cat kws likeNorm played).map (·.2)) - likeScoreOf kws p.1 := by
  simp only [negatedSorted, List.mem_insertionSort] at hp
  obtain ⟨q, hq, hqe⟩ := List.mem_map.mp (List.mem_of_mem_filter hp)
  have hq2 : q.2 = likeScoreOf kws q.1 := by
    rw [likeScored] at hq
    exact scoreSongs_snd hq
  have hmemf := List.mem_filter.mp (scoreSongs_mem (by rw [likeScored] at hq; exact hq))
  cases hqe
  exact ⟨hmemf.1, of_decide_eq_true hmemf.2, by rw [hq2]⟩

/-- C6: for a negated similarity request whose artist-trait extraction
returns a non-empty list, the track served comes from the unplayed pool
with the reference artist excluded, and every candidate outside the
selected most-unlike pool scores at least as high as the served track
(the ranking is inverted); for the plain (non-negated) form, a track served
by the like-artist branch likewise never belongs to the reference artist. -/
theorem c6_negation_inversion :
    (∀ (cat : List Song) (rnd : Rnd) (name : String) (call : Option (Option (List String)))
       (s : Session) (kws : List String) (resp : ChatResp) (s2 : Session) (v : SongView),
       extractArtistTraits call = some kws → kws ≠ [] →
       likeArtistBranch cat rnd name true call s = .done (.ok resp s2) →
       resp.song = some v →
       ∃ g, v = songView g ∧ g ∈ availableSongs cat s.playedSongs ∧
         normalize g.artist ≠ normalize name ∧
         ∀ q ∈ (negatedSorted cat kws (normalize name) s.playedSongs).drop
                 (negatedTopN cat kws (normalize name) s.playedSongs),
           likeScoreOf kws g ≤ likeScoreOf kws q.1) ∧
    (∀ (cat : List Song) (rnd : Rnd) (name : String) (call : Option (Option (List String)))
       (s : Session) (kws : List String) (resp : ChatResp) (s2 : Session) (v : SongView),
       extractArtistTraits call = some kws → kws ≠ [] →
       likeArtistBranch cat rnd name false call s = .done (.ok resp s2) →
       resp.song = some v →
       ∃ g, v = songView g ∧ g ∈ availableSongs cat s.playedSongs ∧
         normalize g.artist ≠ normalize name) := by
  constructor
  · intro cat rnd name call s kws resp s2 v hext hne h hv
    simp only [likeArtistBranch, hext] at h
    rw [if_pos (List.length_pos.mpr hne)] at h
    simp only [if_true] at h
    split at h
    · rename_i p hp
      have hb := step_done_inj h
      obtain ⟨i2, s2x, heq, _, _⟩ := buildSongResponse_spec cat rnd.shuffle p.1 s none none
      rw [heq] at hb
      injection hb with hb1 hb2
      subst hb1
      simp only at hv
      injection hv with hv
      subst hv
      have hptake := pickL_mem hp
      have hpmem := List.mem_of_mem_take hptake
      obtain ⟨hav, hart, hscore⟩ := negatedSorted_mem hpmem
      refine ⟨p.1, rfl, hav, hart, ?_⟩
      intro q hq
      have hqmem : q ∈ negatedSorted cat kws (normalize name) s.playedSongs :=
        List.mem_of_mem_drop hq
      obtain ⟨_, _, hqscore⟩ := negatedSorted_mem hqmem
      have hsorted : List.Pairwise (fun a b : Song × Rat => b.2 ≤ a.2)
          (negatedSorted cat kws (normalize name) s.playedSongs) := by
        rw [negatedSorted]
        haveI ht : IsTotal (Song × Rat) (fun a b => b.2 ≤ a.2) :=
          ⟨fun a b => le_total b.2 a.2⟩
        haveI htr : IsTrans (Song × Rat) (fun a b => b.2 ≤ a.2) :=
          ⟨fun a b cc hab hbc => le_trans hbc hab⟩
        exact List.sorted_insertionSort _ _
      rw [← List.take_append_drop
            (negatedTopN cat kws (normalize name) s.playedSongs)
            (negatedSorted cat kws (normalize name) s.playedSongs),
          List.pairwise_append] at hsorted
      have hle : q.2 ≤ p.2 := hsorted.2.2 p hptake q hq
      rw [hscore, hqscore] at hle
      linarith
    · exact absurd (step_done_inj h) (by simp)
  · intro cat rnd name call s kws resp s2 v hext hne h hv
    simp only [likeArtistBranch, hext] at h
    rw [if_pos (List.length_pos.mpr hne)] at h
    simp only [Bool.false_eq_true, if_false] at h
    split at h
    · split at h
      · rename_i p hp
        have hb := step_done_inj h
        obtain ⟨i2, s2x, heq, _, _⟩ := buildSongResponse_spec cat rnd.shuffle p.1 s none none
        rw [heq] at hb
        injection hb with hb1 hb2
        subst hb1
        simp only at hv
        injection hv with hv
        subst hv
        have hmem : p ∈ likeScored cat kws (normalize name) s.playedSongs :=
          List.mem_of_mem_filter (List.mem_of_mem_filter (pickL_mem hp))
        rw [likeScored] at hmem
        have hmemf := List.mem_filter.mp (scoreSongs_mem hmem)
        exact ⟨p.1, rfl, hmemf.1, of_decide_eq_true hmemf.2⟩
      · exact absurd (step_done_inj h) (by simp)
    · exact Step.noConfusion h

/-- Witness for C3's amended claim: the genre word `country` scores 0 in
the raw pass, and the resolved artist for the bare query `house` is (as the
amended claim says) a substring of the query word. -/
theorem c3_genre_isolation_witness :
    rawKwScore houseSong "country" = 0 ∧
    strIncludes (normalize "house") (normalize houseSong.artist) = true :=
  ⟨c3_genre_isolation.1 houseSong "country" (by decide),
   c3_genre_isolation.2 houseCat "house" [houseSong] (by decide) (by decide) (by decide)
     houseSong (by simp)⟩

/-- Witness for C6: in the two-song scenario the negated request for
something unlike Nico serves the trait-less track, which scores no higher
than anything outside the pool (the pool covers all candidates here). -/
theorem c6_negation_inversion_witness :
    ∃ g, songView likeLight = songView g ∧
      g ∈ availableSongs likeCat freshSession.playedSongs ∧
      normalize g.artist ≠ normalize "Nico" ∧
      ∀ q ∈ (negatedSorted likeCat ["mood:dark"] (normalize "Nico")
               freshSession.playedSongs).drop
              (negatedTopN likeCat ["mood:dark"] (normalize "Nico")
               freshSession.playedSongs),
        likeScoreOf ["mood:dark"] g ≤ likeScoreOf ["mood:dark"] q.1 :=
  c6_negation_inversion.1 likeCat rnd0 "Nico" (some (some ["mood:dark"])) freshSession
    ["mood:dark"] ⟨some "", some (songView likeLight), none, none⟩ likeSessAfter
    (songView likeLight) (by decide) (by decide) (by decide) rfl

end EFM
